import Mathlib

set_option autoImplicit false

/-!
Verification of the authorization-kernel pipeline (DSL Validator →
Blueprint Compiler → Lease Manager) against its design document.

The Python modules are shallowly embedded: Python runtime values are the
inductive `PyVal` (dicts are insertion-ordered association lists, numbers
are exact rationals, so that `int`/`float`/`bool` comparison semantics are
preserved), fallible code runs in `Except PyErr`, and every function below
mirrors one Python function of the repository, keeping its name in
snake_case (leading underscores dropped).
-/

namespace PDA

/-- Exceptions that the embedded code can raise. -/
inductive PyErr where
  | typeError (msg : String)
  | keyError (msg : String)
  | valueError (msg : String)
  | attributeError (msg : String)
deriving Repr, DecidableEq

/-- Python runtime values.  `bool` is kept separate from `int` (as in
Python), but `isinstance(x, int)` is true for bools, which
`is_inst_int`/`num_of` below account for.  Dicts are association lists in
insertion order; Python floats are modelled by their exact rational value
(comparison of finite floats is order-isomorphic to comparison of the
rationals they denote). -/
inductive PyVal where
  | str (s : String)
  | bool (b : Bool)
  | int (n : Int)
  | float (q : Rat)
  | pynone
  | dict (entries : List (String × PyVal))

/-- A Python dict with string keys, in insertion order. -/
abbrev PyDict := List (String × PyVal)

/-- First-match association-list lookup (Python dict access for dicts with
distinct keys). -/
def lookupD : PyDict → String → Option PyVal
  | [], _ => none
  | (k, v) :: rest, key => if k = key then some v else lookupD rest key

/-- `isinstance(v, str)`. -/
def is_inst_str : PyVal → Bool
  | .str _ => true
  | _ => false

/-- `isinstance(v, bool)`. -/
def is_inst_bool : PyVal → Bool
  | .bool _ => true
  | _ => false

/-- `isinstance(v, int)`: in Python, `bool` is a subclass of `int`. -/
def is_inst_int : PyVal → Bool
  | .int _ => true
  | .bool _ => true
  | _ => false

/-- `isinstance(v, (int, float))`. -/
def is_numeric : PyVal → Bool
  | .int _ => true
  | .bool _ => true
  | .float _ => true
  | _ => false

/-- The numeric value of an `int`/`bool`/`float` (0 for non-numbers,
which no caller below relies on). -/
def num_of : PyVal → Rat
  | .int n => n
  | .bool b => cond b 1 0
  | .float q => q
  | _ => 0

/-- The integer value of an `int`/`bool` (0 for other constructors, which
no caller below relies on). -/
def int_of : PyVal → Int
  | .int n => n
  | .bool b => cond b 1 0
  | _ => 0

/-- Python truthiness (`not x` is `!truthy x`). -/
def truthy : PyVal → Bool
  | .str s => !(s == "")
  | .bool b => b
  | .int n => !(n == 0)
  | .float q => !(q == 0)
  | .pynone => false
  | .dict l => !l.isEmpty

/-- `type(v)` as rendered inside an f-string. -/
def py_type_name : PyVal → String
  | .str _ => "<class \x27str\x27>"
  | .bool _ => "<class \x27bool\x27>"
  | .int _ => "<class \x27int\x27>"
  | .float _ => "<class \x27float\x27>"
  | .pynone => "<class \x27NoneType\x27>"
  | .dict _ => "<class \x27dict\x27>"

/-- Decimal rendering of a rational; agrees with Python for integral
values.  (The fractional case approximates `repr(float)`; no theorem below
depends on it.) -/
def rat_repr (q : Rat) : String :=
  if q.den = 1 then toString q.num else toString q.num ++ "/" ++ toString q.den

/-- `str(v)` / f-string interpolation.  The dict case is an opaque
placeholder: every value interpolated by the embedded code is a scalar. -/
def py_str : PyVal → String
  | .str s => s
  | .bool b => cond b "True" "False"
  | .int n => toString n
  | .float q => rat_repr q
  | .pynone => "None"
  | .dict _ => "\x7b...\x7d"

/-- `key in v` (Python membership): key lookup on dicts, substring test on
strings, `TypeError` otherwise. -/
def py_contains (v : PyVal) (key : String) : Except PyErr Bool :=
  match v with
  | .dict l => .ok (lookupD l key).isSome
  | .str s => .ok (decide (List.IsInfix key.toList s.toList))
  | _ => .error (.typeError "argument is not iterable")

/-- `v[key]` (Python subscript): `KeyError` for a missing dict key,
`TypeError` on strings and other non-dicts. -/
def py_index (v : PyVal) (key : String) : Except PyErr PyVal :=
  match v with
  | .dict l =>
    match lookupD l key with
    | some w => .ok w
    | none => .error (.keyError ("\x27" ++ key ++ "\x27"))
  | .str _ => .error (.typeError "string indices must be integers")
  | _ => .error (.typeError "object is not subscriptable")

/-- `v.get(key)` (the dict method, default `None`); `AttributeError` on
non-dicts. -/
def py_get_method (v : PyVal) (key : String) : Except PyErr PyVal :=
  match v with
  | .dict l => .ok ((lookupD l key).getD .pynone)
  | _ => .error (.attributeError "object has no attribute \x27get\x27")

/-- `lease["signature"] != expected_signature` where the right-hand side
is a `str`: Python `!=` never raises, and a non-string left-hand side is
simply unequal. -/
def py_ne_str (v : PyVal) (s : String) : Bool :=
  match v with
  | .str t => !(t == s)
  | _ => true

/-- `a > b` (Python comparison): numeric kinds compare by value, strings
lexicographically, anything else raises `TypeError`. -/
def py_gt (a b : PyVal) : Except PyErr Bool :=
  if is_numeric a && is_numeric b then .ok (decide (num_of b < num_of a))
  else
    match a, b with
    | .str s1, .str s2 => .ok (decide (s2 < s1))
    | _, _ => .error (.typeError "comparison not supported between instances")

/-! ### Byte-level primitives: UTF-8, hex, SHA-256, SHA-1, HMAC, UUIDv5

Bytes are `Nat`s below 256; 32-bit words are `Nat`s reduced mod `2 ^ 32`
explicitly.  These implement the primitives the kernel calls
(`hashlib.sha256`, `hmac.new(..., hashlib.sha256)`, `uuid.uuid5`,
`str.encode("utf-8")`). -/

/-- UTF-8 encoding of one character. -/
def char_utf8 (c : Char) : List Nat :=
  let n := c.toNat
  if n < 128 then [n]
  else if n < 2048 then [192 + n / 64, 128 + n % 64]
  else if n < 65536 then [224 + n / 4096, 128 + n / 64 % 64, 128 + n % 64]
  else [240 + n / 262144, 128 + n / 4096 % 64, 128 + n / 64 % 64, 128 + n % 64]

/-- `s.encode("utf-8")`. -/
def str_to_utf8 (s : String) : List Nat :=
  (s.data.map char_utf8).flatten

/-- Lower-case hexadecimal digit. -/
def hex_digit (n : Nat) : Char :=
  if n < 10 then Char.ofNat (48 + n) else Char.ofNat (87 + n)

/-- Two-digit lower-case hex rendering of a byte. -/
def byte_hex (b : Nat) : String :=
  String.mk [hex_digit (b / 16), hex_digit (b % 16)]

/-- `.hexdigest()`-style rendering of a byte string. -/
def bytes_hex (l : List Nat) : String :=
  String.join (l.map byte_hex)

/-- Truncation to a 32-bit word. -/
def w32 (n : Nat) : Nat := n % 4294967296

/-- Right rotation of a 32-bit word by `n` places. -/
def rotr32 (n x : Nat) : Nat := x / 2 ^ n + x % 2 ^ n * 2 ^ (32 - n)

/-- Left rotation of a 32-bit word by `n` places. -/
def rotl32 (n x : Nat) : Nat := w32 (x * 2 ^ n) + x / 2 ^ (32 - n)

/-- Big-endian 32-bit words of a byte string (length a multiple of 4). -/
def words32_be : List Nat → List Nat
  | b0 :: b1 :: b2 :: b3 :: rest =>
    (b0 * 16777216 + b1 * 65536 + b2 * 256 + b3) :: words32_be rest
  | _ => []

/-- Big-endian bytes of a 32-bit word. -/
def word32_bytes (w : Nat) : List Nat :=
  [w / 16777216 % 256, w / 65536 % 256, w / 256 % 256, w % 256]

/-- Big-endian 8-byte rendering of a 64-bit length field. -/
def word64_bytes (w : Nat) : List Nat :=
  [w / 2 ^ 56 % 256, w / 2 ^ 48 % 256, w / 2 ^ 40 % 256, w / 2 ^ 32 % 256,
   w / 2 ^ 24 % 256, w / 2 ^ 16 % 256, w / 2 ^ 8 % 256, w % 256]

/-- Merkle–Damgård padding shared by SHA-256 and SHA-1: a `0x80` byte,
zeros to 56 mod 64, then the bit length, big-endian. -/
def md_padding (len : Nat) : List Nat :=
  128 :: List.replicate ((119 - len % 64) % 64) 0 ++ word64_bytes (len * 8)

/-- The 64 SHA-256 round constants. -/
def sha256_k : List Nat :=
  [1116352408, 1899447441, 3049323471, 3921009573, 961987163,
   1508970993, 2453635748, 2870763221, 3624381080, 310598401,
   607225278, 1426881987, 1925078388, 2162078206, 2614888103,
   3248222580, 3835390401, 4022224774, 264347078, 604807628,
   770255983, 1249150122, 1555081692, 1996064986, 2554220882,
   2821834349, 2952996808, 3210313671, 3336571891, 3584528711,
   113926993, 338241895, 666307205, 773529912, 1294757372,
   1396182291, 1695183700, 1986661051, 2177026350, 2456956037,
   2730485921, 2820302411, 3259730800, 3345764771, 3516065817,
   3600352804, 4094571909, 275423344, 430227734, 506948616,
   659060556, 883997877, 958139571, 1322822218, 1537002063,
   1747873779, 1955562222, 2024104815, 2227730452, 2361852424,
   2428436474, 2756734187, 3204031479, 3329325298]

/-- The SHA-256 initial hash value. -/
def sha256_h0 : List Nat :=
  [1779033703, 3144134277, 1013904242, 2773480762,
   1359893119, 2600822924, 528734635, 1541459225]

/-- Extends a 16-word SHA-256 message schedule by `count` further words. -/
def sha256_extend (ws : List Nat) : Nat → List Nat
  | 0 => ws
  | count + 1 =>
    let n := ws.length
    let w15 := ws.getD (n - 15) 0
    let w2 := ws.getD (n - 2) 0
    let s0 := Nat.xor (Nat.xor (rotr32 7 w15) (rotr32 18 w15)) (w15 / 2 ^ 3)
    let s1 := Nat.xor (Nat.xor (rotr32 17 w2) (rotr32 19 w2)) (w2 / 2 ^ 10)
    sha256_extend (ws ++ [w32 (ws.getD (n - 16) 0 + s0 + ws.getD (n - 7) 0 + s1)]) count

/-- One SHA-256 round: the state is the 8-word list `[a,b,c,d,e,f,g,h]`. -/
def sha256_round (st : List Nat) (kw : Nat × Nat) : List Nat :=
  match st with
  | [a, b, c, d, e, f, g, h] =>
    let s1 := Nat.xor (Nat.xor (rotr32 6 e) (rotr32 11 e)) (rotr32 25 e)
    let ch := Nat.xor (Nat.land e f) (Nat.land (4294967295 - e) g)
    let t1 := w32 (h + s1 + ch + kw.1 + kw.2)
    let s0 := Nat.xor (Nat.xor (rotr32 2 a) (rotr32 13 a)) (rotr32 22 a)
    let mj := Nat.xor (Nat.xor (Nat.land a b) (Nat.land a c)) (Nat.land b c)
    let t2 := w32 (s0 + mj)
    [w32 (t1 + t2), a, b, c, w32 (d + t1), e, f, g]
  | other => other

/-- SHA-256 compression of one 64-byte block into the running state. -/
def sha256_compress (st : List Nat) (block : List Nat) : List Nat :=
  let ws := sha256_extend (words32_be block) 48
  let st2 := (sha256_k.zip ws).foldl sha256_round st
  (st.zip st2).map fun p => w32 (p.1 + p.2)

/-- Absorbs a padded byte stream 64 bytes at a time. -/
def sha256_absorb (st buf : List Nat) : List Nat → List Nat
  | [] => st
  | b :: rest =>
    let buf2 := buf ++ [b]
    if buf2.length = 64 then sha256_absorb (sha256_compress st buf2) [] rest
    else sha256_absorb st buf2 rest

/-- `hashlib.sha256(msg).digest()`. -/
def sha256_bytes (msg : List Nat) : List Nat :=
  ((sha256_absorb sha256_h0 [] (msg ++ md_padding msg.length)).map word32_bytes).flatten

/-- `hashlib.sha256(msg).hexdigest()`. -/
def sha256_hex (msg : List Nat) : String :=
  bytes_hex (sha256_bytes msg)

/-- `hmac.new(key, msg, hashlib.sha256).hexdigest()` (RFC 2104 with a
64-byte block). -/
def hmac_sha256_hex (key msg : List Nat) : String :=
  let k0 := if 64 < key.length then sha256_bytes key else key
  let kp := k0 ++ List.replicate (64 - k0.length) 0
  let ipad := kp.map (Nat.xor 54)
  let opad := kp.map (Nat.xor 92)
  bytes_hex (sha256_bytes (opad ++ sha256_bytes (ipad ++ msg)))

/-- The SHA-1 initial state. -/
def sha1_h0 : List Nat :=
  [1732584193, 4023233417, 2562383102, 271733878, 3285377520]

/-- Extends a 16-word SHA-1 message schedule by `count` further words. -/
def sha1_extend (ws : List Nat) : Nat → List Nat
  | 0 => ws
  | count + 1 =>
    let n := ws.length
    let x := Nat.xor (Nat.xor (ws.getD (n - 3) 0) (ws.getD (n - 8) 0))
      (Nat.xor (ws.getD (n - 14) 0) (ws.getD (n - 16) 0))
    sha1_extend (ws ++ [rotl32 1 x]) count

/-- One SHA-1 round; `i` is the round index, `w` the schedule word. -/
def sha1_round (st : List Nat) (iw : Nat × Nat) : List Nat :=
  match st with
  | [a, b, c, d, e] =>
    let i := iw.1
    let f :=
      if i < 20 then Nat.xor (Nat.land b c) (Nat.land (4294967295 - b) d)
      else if i < 40 then Nat.xor (Nat.xor b c) d
      else if i < 60 then Nat.xor (Nat.xor (Nat.land b c) (Nat.land b d)) (Nat.land c d)
      else Nat.xor (Nat.xor b c) d
    let k :=
      if i < 20 then 1518500249
      else if i < 40 then 1859775393
      else if i < 60 then 2400959708
      else 3395469782
    [w32 (rotl32 5 a + f + e + k + iw.2), a, rotl32 30 b, c, d]
  | other => other

/-- SHA-1 compression of one 64-byte block. -/
def sha1_compress (st : List Nat) (block : List Nat) : List Nat :=
  let ws := sha1_extend (words32_be block) 64
  let st2 := ((List.range 80).zip ws).foldl sha1_round st
  (st.zip st2).map fun p => w32 (p.1 + p.2)

/-- Absorbs a padded byte stream 64 bytes at a time (SHA-1). -/
def sha1_absorb (st buf : List Nat) : List Nat → List Nat
  | [] => st
  | b :: rest =>
    let buf2 := buf ++ [b]
    if buf2.length = 64 then sha1_absorb (sha1_compress st buf2) [] rest
    else sha1_absorb st buf2 rest

/-- `hashlib.sha1(msg).digest()`. -/
def sha1_bytes (msg : List Nat) : List Nat :=
  ((sha1_absorb sha1_h0 [] (msg ++ md_padding msg.length)).map word32_bytes).flatten

/-- The bytes of `uuid.UUID("6ba7b810-9dad-11d1-80b4-00c04fd430c8")`, the
namespace constant the compiler uses. -/
def namespace_uuid_bytes : List Nat :=
  [107, 167, 184, 16, 157, 173, 17, 209,
   128, 180, 0, 192, 79, 212, 48, 200]

/-- `str(uuid.uuid5(namespace, name))`: SHA-1 of namespace bytes plus the
UTF-8 of `name`, truncated to 16 bytes, with version and variant bits
forced, rendered 8-4-4-4-12. -/
def uuid5_str (ns : List Nat) (name : String) : String :=
  let d := (sha1_bytes (ns ++ str_to_utf8 name)).take 16
  let d2 := d.take 6 ++ [Nat.lor (Nat.land (d.getD 6 0) 15) 80, d.getD 7 0,
    Nat.lor (Nat.land (d.getD 8 0) 63) 128] ++ d.drop 9
  bytes_hex (d2.take 4) ++ "-" ++ bytes_hex ((d2.drop 4).take 2) ++ "-" ++
    bytes_hex ((d2.drop 6).take 2) ++ "-" ++ bytes_hex ((d2.drop 8).take 2) ++ "-" ++
    bytes_hex (d2.drop 10)

/-! ### `json.dumps(..., separators=(",", ":"), sort_keys=True)` and the
Blueprint Compiler (`blueprint_compiler.py`) -/

/-- Four-digit lower-case hex, as in a JSON `\uXXXX` escape. -/
def hex4 (n : Nat) : String :=
  String.mk [hex_digit (n / 4096 % 16), hex_digit (n / 256 % 16),
    hex_digit (n / 16 % 16), hex_digit (n % 16)]

/-- JSON escaping of one character (`ensure_ascii=True` default of
`json.dumps`): the two-character escapes, `\u00XX` for other control
characters, `\uXXXX` (with surrogate pairs) for non-ASCII. -/
def json_escape_char (c : Char) : String :=
  let n := c.toNat
  if c = '"' then "\\\""
  else if c = '\\' then "\\\\"
  else if n = 8 then "\\b"
  else if n = 9 then "\\t"
  else if n = 10 then "\\n"
  else if n = 12 then "\\f"
  else if n = 13 then "\\r"
  else if n < 32 then "\\u" ++ hex4 n
  else if n < 127 then String.mk [c]
  else if n < 65536 then "\\u" ++ hex4 n
  else
    "\\u" ++ hex4 (55296 + (n - 65536) / 1024) ++ "\\u" ++ hex4 (56320 + (n - 65536) % 1024)

/-- A JSON string literal. -/
def json_quote (s : String) : String :=
  "\"" ++ String.join (s.data.map json_escape_char) ++ "\""

/-- Key order used by `sorted(...)`/`sort_keys=True`: Python compares the
key tuples, and dict keys are pairwise distinct, so only the string order
matters. -/
def key_le (p q : String × PyVal) : Prop := p.1 ≤ q.1

instance : DecidableRel key_le := fun p q => inferInstanceAs (Decidable (p.1 ≤ q.1))

/-- `sorted(obj.items())` for a dict with distinct keys. -/
def sort_entries (l : List (String × PyVal)) : List (String × PyVal) :=
  List.insertionSort key_le l

mutual

/-- `_serialize_canonical_ast`s inner `prepare_for_json`: recursively sorts
every dict by key.  (The source sorts the items and then recurses into the
values; since recursion does not change keys, recursing first and sorting
after — as the termination checker wants — produces the same list.) -/
def prepare_for_json : PyVal → PyVal
  | .str s => .str s
  | .bool b => .bool b
  | .int n => .int n
  | .float q => .float q
  | .pynone => .pynone
  | .dict l => .dict (sort_entries (prepare_entries l))

/-- `prepare_for_json` mapped over the entries of a dict. -/
def prepare_entries : List (String × PyVal) → List (String × PyVal)
  | [] => []
  | (k, v) :: rest => (k, prepare_for_json v) :: prepare_entries rest

end

mutual

/-- `json.dumps(v, separators=(",", ":"), sort_keys=True)`.  (As above,
values are dumped before the keys are sorted; keys are unchanged by
dumping, so the output is the same.  The float case inherits the
`rat_repr` approximation; the kernel never serializes floats.) -/
def json_dumps : PyVal → String
  | .str s => json_quote s
  | .bool b => cond b "true" "false"
  | .int n => toString n
  | .float q => rat_repr q
  | .pynone => "null"
  | .dict l =>
    let entries := (List.insertionSort (fun p q : String × String => p.1 ≤ q.1)
      (json_dumps_entries l)).map fun p => json_quote p.1 ++ ":" ++ p.2
    "\x7b" ++ String.intercalate "," entries ++ "\x7d"

/-- `json_dumps` mapped over the entries of a dict. -/
def json_dumps_entries : List (String × PyVal) → List (String × String)
  | [] => []
  | (k, v) :: rest => (k, json_dumps v) :: json_dumps_entries rest

end

/-- `dict(v)`: a shallow copy of a dict; raises on the values the compiler
could meet otherwise. -/
def as_dict_copy (v : PyVal) : Except PyErr PyDict :=
  match v with
  | .dict l => .ok l
  | .str _ => .error (.valueError "dictionary update sequence element is not iterable")
  | _ => .error (.typeError "object is not iterable")

/-- String rendering of an exception, as `str(e)` inside the compiler's
`except` clause (`str(KeyError("k"))` is `"\x27k\x27"`, which `py_index`
already stores). -/
def py_err_str : PyErr → String
  | .typeError m => m
  | .keyError m => m
  | .valueError m => m
  | .attributeError m => m

/-- `v == "lit"` for a string literal right-hand side. -/
def py_eq_str (v : PyVal) (s : String) : Bool :=
  match v with
  | .str t => t == s
  | _ => false

/-- `BlueprintCompiler.CAPABILITY_MAP`: the closed 13-entry table. -/
def capability_map : List (String × String) :=
  [("MUTATE:FILE:MOVE", "FILE_MOVE"),
   ("MUTATE:FILE:DELETE", "FILE_DELETE"),
   ("MUTATE:FILE:RENAME", "FILE_RENAME"),
   ("MUTATE:FOLDER:CREATE", "FOLDER_CREATE"),
   ("MUTATE:FOLDER:DELETE", "FOLDER_DELETE"),
   ("TRANSFORM:FILE:COMPRESS", "FILE_COMPRESS"),
   ("TRANSFORM:FILE:ENCRYPT", "FILE_ENCRYPT"),
   ("TRANSFORM:EMAIL:EXTRACT", "EMAIL_EXTRACT"),
   ("TRANSFORM:DATASET:FILTER", "DATASET_FILTER"),
   ("DISSEMINATE:FILE:COPY", "FILE_COPY"),
   ("DISSEMINATE:FILE:SHARE", "FILE_SHARE"),
   ("DISSEMINATE:EMAIL:SEND", "EMAIL_SEND"),
   ("DISSEMINATE:DEVICE:NOTIFY", "DEVICE_NOTIFY")]

/-- `BlueprintCompiler._create_error`: a full `CompilationResult` envelope
(note that `_resolve_capability` nests one of these inside its own
`"error"` field). -/
def create_error_compile (code msg : String) : PyVal :=
  .dict [("status", .str "FAILURE"), ("manifest", .pynone),
    ("error", .dict [("error_code", .str code), ("message", .str msg)])]

/-- `BlueprintCompiler._resolve_capability`: builds the case-sensitive key
`"{verb.class}:{object.type}:{verb.action}"` and looks it up in the closed
table; returns its internal status dict (whose failure form has a
`capability_id` key and *no* `manifest` key). -/
def resolve_capability (ast : PyVal) : Except PyErr PyVal := do
  let verb ← py_index ast "verb"
  let verb_class ← py_index verb "class"
  let obj ← py_index ast "object"
  let object_type ← py_index obj "type"
  let action ← py_index verb "action"
  let key := py_str verb_class ++ ":" ++ py_str object_type ++ ":" ++ py_str action
  match List.lookup key capability_map with
  | none =>
    pure (.dict [("status", .str "FAILURE"), ("capability_id", .pynone),
      ("error", create_error_compile "UNKNOWN_CAPABILITY" ("No capability found for: " ++ key))])
  | some cap =>
    pure (.dict [("status", .str "SUCCESS"), ("capability_id", .str cap),
      ("error", .pynone)])

/-- `BlueprintCompiler._bind_inputs`. -/
def bind_inputs (ast : PyVal) : Except PyErr PyVal := do
  let subject ← py_index ast "subject"
  let obj ← py_index ast "object"
  let verb ← py_index ast "verb"
  let subject_identifier ← py_index subject "identifier"
  let object_identifier ← py_index obj "identifier"
  let action ← py_index verb "action"
  let subject_type ← py_index subject "type"
  let object_type ← py_index obj "type"
  pure (.dict [("subject_identifier", subject_identifier),
    ("object_identifier", object_identifier), ("action", action),
    ("subject_type", subject_type), ("object_type", object_type)])

/-- `BlueprintCompiler._propagate_constraints`. -/
def propagate_constraints (ast : PyVal) : Except PyErr PyVal := do
  let metadata ← py_index ast "metadata"
  let scope ← py_index metadata "scope"
  let reversible ← py_index metadata "reversible"
  let sensitivity ← py_index metadata "sensitivity"
  let hrc_required ← py_index metadata "hrc_required"
  pure (.dict [("scope", scope), ("reversible", reversible),
    ("sensitivity", sensitivity), ("hrc_required", hrc_required)])

/-- `BlueprintCompiler._serialize_canonical_ast`: a defensive copy of the
four sections, then `prepare_for_json`, then compact sorted `json.dumps`. -/
def serialize_canonical_ast (ast : PyVal) : Except PyErr String := do
  let s ← py_index ast "subject"
  let sd ← as_dict_copy s
  let v ← py_index ast "verb"
  let vd ← as_dict_copy v
  let o ← py_index ast "object"
  let od ← as_dict_copy o
  let m ← py_index ast "metadata"
  let md ← as_dict_copy m
  let ast_copy := PyVal.dict [("subject", .dict sd), ("verb", .dict vd),
    ("object", .dict od), ("metadata", .dict md)]
  pure (json_dumps (prepare_for_json ast_copy))

/-- `BlueprintCompiler._generate_task_id`: UUIDv5 of the canonical JSON
against the fixed namespace. -/
def generate_task_id (ast : PyVal) : Except PyErr String := do
  let canonical_json ← serialize_canonical_ast ast
  pure (uuid5_str namespace_uuid_bytes canonical_json)

/-- `BlueprintCompiler._generate_ast_hash`: SHA-256 of the same canonical
JSON. -/
def generate_ast_hash (ast : PyVal) : Except PyErr String := do
  let canonical_json ← serialize_canonical_ast ast
  pure (sha256_hex (str_to_utf8 canonical_json))

/-- The body of `BlueprintCompiler.compile_ast` inside its `try`. -/
def compile_ast_body (ast : PyVal) : Except PyErr PyVal := do
  let capability_result ← resolve_capability ast
  let st ← py_index capability_result "status"
  if py_eq_str st "FAILURE" then pure capability_result
  else do
    let capability_id ← py_index capability_result "capability_id"
    let inputs ← bind_inputs ast
    let constraints ← propagate_constraints ast
    let task_id ← generate_task_id ast
    let ast_hash ← generate_ast_hash ast
    let manifest := PyVal.dict [("task_id", .str task_id),
      ("capability_id", capability_id), ("inputs", inputs),
      ("constraints", constraints),
      ("provenance", .dict [("ast_hash", .str ast_hash)])]
    pure (.dict [("status", .str "SUCCESS"), ("manifest", manifest),
      ("error", .pynone)])

/-- `compile_ast`: the `try`/`except Exception` wrapper mapping any raised
exception to a `COMPILATION_FAILURE` envelope. -/
def compile_ast (ast : PyVal) : PyVal :=
  match compile_ast_body ast with
  | .ok r => r
  | .error e => create_error_compile "COMPILATION_FAILURE" ("Compilation failed: " ++ py_err_str e)

/-! ### Lease Manager (`lease_manager.py`) -/

/-- One `LeaseError` record. -/
structure LeaseError where
  error_code : String
  message : String
deriving Repr, DecidableEq

/-- One `LeaseDecision` record (the lease, when present, is the Python
dict the manager builds). -/
structure LeaseDecision where
  status : String
  lease : Option PyDict
  error : Option LeaseError

/-- `LeaseManager.LEASE_DURATION` (seconds). -/
def lease_duration : Int := 300

/-- `LeaseManager.SECRET_KEY` as bytes. -/
def secret_key : List Nat := str_to_utf8 "lease_manager_secret_key_v1.0"

/-- `LeaseManager._create_error`. -/
def create_error (error_code message : String) : LeaseDecision :=
  { status := "DENIED", lease := none,
    error := some { error_code := error_code, message := message } }

/-- The `{"status": "GRANTED", "lease": None, "error": None}` marker the
gate helpers return on success. -/
def pass_decision : LeaseDecision :=
  { status := "GRANTED", lease := none, error := none }

/-- The required top-level manifest fields, in the order the integrity
gate checks them. -/
def required_fields : List String :=
  ["task_id", "capability_id", "inputs", "constraints", "provenance"]

/-- `LeaseManager._check_manifest_integrity`. -/
def check_manifest_integrity (manifest : PyDict) : Except PyErr LeaseDecision :=
  match required_fields.find? (fun f => (lookupD manifest f).isNone) with
  | some f => .ok (create_error "INVALID_MANIFEST" ("Missing required field: " ++ f))
  | none =>
    let task_id := (lookupD manifest "task_id").getD .pynone
    if !truthy task_id || !is_inst_str task_id then
      .ok (create_error "INVALID_MANIFEST" "task_id must be a non-empty string")
    else
      let constraints := (lookupD manifest "constraints").getD (.dict [])
      do
        let present ← py_contains constraints "hrc_required"
        if present then do
          let v ← py_index constraints "hrc_required"
          if !is_inst_bool v then
            pure (create_error "INVALID_MANIFEST" "hrc_required must be boolean")
          else pure pass_decision
        else pure pass_decision

/-- `LeaseManager._check_time_window`. -/
def check_time_window (now : PyVal) : LeaseDecision :=
  if !is_inst_int now then
    create_error "LEASE_EXPIRED" ("Current time must be integer, got " ++ py_type_name now)
  else if int_of now < 0 then
    create_error "LEASE_EXPIRED" ("Current time cannot be negative: " ++ py_str now)
  else pass_decision

/-- `LeaseManager._check_trust_threshold`. -/
def check_trust_threshold (trust_snapshot : PyDict) : LeaseDecision :=
  match ["trust_score", "minimum_required"].find?
      (fun f => (lookupD trust_snapshot f).isNone) with
  | some f => create_error "INVALID_MANIFEST" ("Missing trust snapshot field: " ++ f)
  | none =>
    let trust_score := (lookupD trust_snapshot "trust_score").getD .pynone
    let minimum_required := (lookupD trust_snapshot "minimum_required").getD .pynone
    if !is_numeric trust_score then
      create_error "INSUFFICIENT_TRUST" ("Invalid trust score type: " ++ py_type_name trust_score)
    else if !is_numeric minimum_required then
      create_error "INSUFFICIENT_TRUST"
        ("Invalid minimum required type: " ++ py_type_name minimum_required)
    else if num_of trust_score < num_of minimum_required then
      create_error "INSUFFICIENT_TRUST"
        ("Trust score " ++ py_str trust_score ++ " below minimum " ++ py_str minimum_required)
    else pass_decision

/-- `LeaseManager._check_hrc_requirement`.  The gate triggers only when
`constraints.get("hrc_required") is True`. -/
def check_hrc_requirement (manifest : PyDict) (hrc_token : Option PyDict) :
    Except PyErr LeaseDecision := do
  let constraints := (lookupD manifest "constraints").getD (.dict [])
  let flag ← py_get_method constraints "hrc_required"
  match flag with
  | .bool true =>
    match hrc_token with
    | none => pure (create_error "HRC_REQUIRED" "HRC token required but not provided")
    | some tok =>
      match lookupD tok "confirmed" with
      | none => pure (create_error "HRC_REQUIRED" "HRC token missing \x27confirmed\x27 field")
      | some c =>
        if !is_inst_bool c then
          pure (create_error "HRC_REQUIRED" "HRC token \x27confirmed\x27 field must be boolean")
        else if !truthy c then
          pure (create_error "HRC_REQUIRED" "HRC token not confirmed")
        else pure pass_decision
  | _ => pure pass_decision

/-- `LeaseManager._generate_signature`: HMAC-SHA256 over the f-string
`"{task_id}:{issued_at}:{expires_at}"`. -/
def generate_signature (task_id issued_at expires_at : PyVal) : String :=
  hmac_sha256_hex secret_key
    (str_to_utf8 (py_str task_id ++ ":" ++ py_str issued_at ++ ":" ++ py_str expires_at))

/-- The lease dict `_grant_lease` builds (factored out so that theorems
about `verify_lease` can name it).  The time-window gate guarantees `now`
is `int`-typed when this runs, so `now + 300` is `int_of now + 300`. -/
def lease_fields (manifest : PyDict) (now : PyVal) : PyDict :=
  let task_id := (lookupD manifest "task_id").getD .pynone
  let expires_at : PyVal := .int (int_of now + lease_duration)
  [("task_id", task_id), ("issued_at", now), ("expires_at", expires_at),
   ("signature", .str (generate_signature task_id now expires_at))]

/-- `LeaseManager._grant_lease`. -/
def grant_lease (manifest : PyDict) (now : PyVal) : LeaseDecision :=
  { status := "GRANTED", lease := some (lease_fields manifest now), error := none }

/-- `LeaseManager.evaluate_lease`: the four fail-closed gates; the first
gate whose result has status `"DENIED"` is returned unchanged. -/
def evaluate_lease (manifest trust_snapshot : PyDict) (now : PyVal)
    (hrc_token : Option PyDict) : Except PyErr LeaseDecision := do
  let integrity_check ← check_manifest_integrity manifest
  if integrity_check.status = "DENIED" then pure integrity_check
  else
    let time_check := check_time_window now
    if time_check.status = "DENIED" then pure time_check
    else
      let trust_check := check_trust_threshold trust_snapshot
      if trust_check.status = "DENIED" then pure trust_check
      else do
        let hrc_check ← check_hrc_requirement manifest hrc_token
        if hrc_check.status = "DENIED" then pure hrc_check
        else pure (grant_lease manifest now)

/-- The body of `verify_lease` inside its `try`. -/
def verify_lease_body (lease : PyDict) (now : PyVal) : Except PyErr Bool := do
  let task_id ← py_index (.dict lease) "task_id"
  let issued_at ← py_index (.dict lease) "issued_at"
  let expires_at ← py_index (.dict lease) "expires_at"
  let expected_signature := generate_signature task_id issued_at expires_at
  let signature ← py_index (.dict lease) "signature"
  if py_ne_str signature expected_signature then pure false
  else do
    let expired ← py_gt now expires_at
    if expired then pure false
    else do
      let future ← py_gt issued_at now
      if future then pure false
      else pure true

/-- `LeaseManager.verify_lease`: recomputes the expected signature and
checks the time window; the `except (KeyError, TypeError)` clause (which
covers every exception the body can raise) returns `False`. -/
def verify_lease (lease : PyDict) (now : PyVal) : Bool :=
  match verify_lease_body lease now with
  | .ok b => b
  | .error _ => false

/-- The status of an `evaluate_lease` outcome (`none` when the call
raised). -/
def decision_status : Except PyErr LeaseDecision → Option String
  | .ok d => some d.status
  | .error _ => none

/-- The lease of an `evaluate_lease` outcome. -/
def decision_lease : Except PyErr LeaseDecision → Option PyDict
  | .ok d => d.lease
  | .error _ => none

/-- The error code of an `evaluate_lease` outcome. -/
def decision_error_code : Except PyErr LeaseDecision → Option String
  | .ok d => d.error.map (·.error_code)
  | .error _ => none

/-! ### DSL Validator (`dsl_validator.py`)

The four `TOKEN_PATTERNS` regexes are embedded as deterministic full-match
parsers.  Each regex is anchored (`re.fullmatch`), its character classes
(letters, digits, underscore, hyphen and — for identifiers — slash) are disjoint from
whitespace and from the separators `,`/`(`/`)`, and the `(true|false)`
alternation is prefix-unambiguous, so greedy left-to-right matching with
no backtracking recognizes exactly the regex language.  Crucially,
`BOOLEAN_PATTERN` is itself a group, so `({BOOLEAN_PATTERN})` captures
twice and the META pattern yields **six** groups, which the parsers below
reproduce. -/

/-- Python `\s` / `str.strip()` whitespace. -/
def is_py_space (c : Char) : Bool :=
  c = ' ' || c = '\t' || c = '\n' || c = '\r' || c = '\x0b' || c = '\x0c'

/-- The `IDENTIFIER_PATTERN` character class: letters, digits,
underscore, hyphen, slash. -/
def is_ident_char (c : Char) : Bool :=
  ('A' ≤ c && c ≤ 'Z') || ('a' ≤ c && c ≤ 'z') || ('0' ≤ c && c ≤ '9') ||
    c = '_' || c = '-' || c = '/'

/-- The `ACTION_PATTERN` character class `[A-Za-z0-9_\-]`. -/
def is_action_char (c : Char) : Bool :=
  ('A' ≤ c && c ≤ 'Z') || ('a' ≤ c && c ≤ 'z') || ('0' ≤ c && c ≤ '9') ||
    c = '_' || c = '-'

/-- The class `[A-Z]`. -/
def is_upper_az (c : Char) : Bool := 'A' ≤ c && c ≤ 'Z'

/-- `str.strip()`. -/
def py_strip (s : String) : String :=
  String.mk (((s.toList.dropWhile is_py_space).reverse.dropWhile is_py_space).reverse)

/-- `str.isspace()`. -/
def py_isspace (s : String) : Bool :=
  !(s == "") && s.toList.all is_py_space

/-- `s.split("\n")` for the single-character separator (the accumulator
keeps the current line reversed). -/
def split_nl (acc : List Char) : List Char → List String
  | [] => [String.mk acc.reverse]
  | c :: rest =>
    if c = '\n' then String.mk acc.reverse :: split_nl [] rest
    else split_nl (c :: acc) rest

/-- Consume an exact literal. -/
def expect_lit : List Char → List Char → Option (List Char)
  | [], cs => some cs
  | l :: ls, c :: cs => if c = l then expect_lit ls cs else none
  | _ :: _, [] => none

/-- Consume one exact character. -/
def expect_char (c : Char) : List Char → Option (List Char)
  | x :: rest => if x = c then some rest else none
  | [] => none

/-- `(true|false)`: returns the captured text. -/
def match_bool_lit (cs : List Char) : Option (String × List Char) :=
  match expect_lit "true".toList cs with
  | some rest => some ("true", rest)
  | none =>
    match expect_lit "false".toList cs with
    | some rest => some ("false", rest)
    | none => none

/-- A nonempty character-class group `[...]+`: returns the captured text. -/
def match_class_plus (p : Char → Bool) (cs : List Char) : Option (String × List Char) :=
  let taken := cs.takeWhile p
  if taken.isEmpty then none else some (String.mk taken, cs.dropWhile p)

/-- `re.fullmatch` of a two-field pattern
`KEY\s*\(\s*(G1)\s*,\s*(G2)\s*\)`: returns `match.groups()`. -/
def match_two_fields (key : String) (p1 p2 : Char → Bool) (cs : List Char) :
    Option (List String) := do
  let cs ← expect_lit key.toList cs
  let cs := cs.dropWhile is_py_space
  let cs ← expect_char '(' cs
  let cs := cs.dropWhile is_py_space
  let (g1, cs) ← match_class_plus p1 cs
  let cs := cs.dropWhile is_py_space
  let cs ← expect_char ',' cs
  let cs := cs.dropWhile is_py_space
  let (g2, cs) ← match_class_plus p2 cs
  let cs := cs.dropWhile is_py_space
  let cs ← expect_char ')' cs
  if cs.isEmpty then some [g1, g2] else none

/-- `TOKEN_PATTERNS["SUBJECT"]`. -/
def match_subject (cs : List Char) : Option (List String) :=
  match_two_fields "SUBJECT" is_upper_az is_ident_char cs

/-- `TOKEN_PATTERNS["VERB"]`. -/
def match_verb (cs : List Char) : Option (List String) :=
  match_two_fields "VERB" is_upper_az is_action_char cs

/-- `TOKEN_PATTERNS["OBJECT"]`. -/
def match_object (cs : List Char) : Option (List String) :=
  match_two_fields "OBJECT" is_upper_az is_ident_char cs

/-- `TOKEN_PATTERNS["META"]`: because `({BOOLEAN_PATTERN})` nests a group
inside a group, each boolean is captured twice and `match.groups()` has
six entries. -/
def match_meta (cs : List Char) : Option (List String) := do
  let cs ← expect_lit "META".toList cs
  let cs := cs.dropWhile is_py_space
  let cs ← expect_char '(' cs
  let cs := cs.dropWhile is_py_space
  let (scope, cs) ← match_class_plus is_ident_char cs
  let cs := cs.dropWhile is_py_space
  let cs ← expect_char ',' cs
  let cs := cs.dropWhile is_py_space
  let (b1, cs) ← match_bool_lit cs
  let cs := cs.dropWhile is_py_space
  let cs ← expect_char ',' cs
  let cs := cs.dropWhile is_py_space
  let (sens, cs) ← match_class_plus is_upper_az cs
  let cs := cs.dropWhile is_py_space
  let cs ← expect_char ',' cs
  let cs := cs.dropWhile is_py_space
  let (b2, cs) ← match_bool_lit cs
  let cs := cs.dropWhile is_py_space
  let cs ← expect_char ')' cs
  if cs.isEmpty then some [scope, b1, b1, sens, b2, b2] else none

/-- One stored token: the matched line, `match.groups()`, and the 1-based
location the parser records. -/
structure Token where
  raw : String
  values : List String
  line : Nat
  column : Nat

/-- The `tokens` dict of `_parse_grammar`: its key space is exactly the
four declaration kinds. -/
structure ParsedTokens where
  subject : Option Token
  verb : Option Token
  object : Option Token
  meta : Option Token

/-- An error location (`line`/`column` may be `None`). -/
structure Location where
  line : Option Nat
  column : Option Nat
deriving Repr, DecidableEq

/-- One `ValidationError` record. -/
structure ValidationError where
  error_code : String
  message : String
  location : Location
deriving Repr, DecidableEq

/-- One `ValidationResult` record. -/
structure ValidationResult where
  status : String
  ast : Option PyVal
  error : Option ValidationError

/-- `DSLValidator._create_error` (the token-dict case passes the token's
stored line and column). -/
def create_error_v (error_code message : String) (location : Location) : ValidationResult :=
  { status := "INVALID", ast := none,
    error := some { error_code := error_code, message := message, location := location } }

/-- Tries the four patterns in the insertion order of `TOKEN_PATTERNS`. -/
def try_match_line (cs : List Char) : Option (String × List String) :=
  match match_subject cs with
  | some vs => some ("SUBJECT", vs)
  | none =>
    match match_verb cs with
    | some vs => some ("VERB", vs)
    | none =>
      match match_object cs with
      | some vs => some ("OBJECT", vs)
      | none =>
        match match_meta cs with
        | some vs => some ("META", vs)
        | none => none

/-- `token_type in tokens`. -/
def has_kind (t : ParsedTokens) (kind : String) : Bool :=
  if kind = "SUBJECT" then t.subject.isSome
  else if kind = "VERB" then t.verb.isSome
  else if kind = "OBJECT" then t.object.isSome
  else if kind = "META" then t.meta.isSome
  else false

/-- `tokens[token_type] = ...`. -/
def store_kind (t : ParsedTokens) (kind : String) (tok : Token) : ParsedTokens :=
  if kind = "SUBJECT" then { t with subject := some tok }
  else if kind = "VERB" then { t with verb := some tok }
  else if kind = "OBJECT" then { t with object := some tok }
  else if kind = "META" then { t with meta := some tok }
  else t

/-- The outcome of `_parse_grammar`. -/
inductive ParseOutcome where
  | failed (r : ValidationResult)
  | parsed (tokens : ParsedTokens)

/-- The line loop of `_parse_grammar` (`i` is the 0-based index of the
next line). -/
def parse_grammar_lines (tokens : ParsedTokens) (i : Nat) :
    List String → ParseOutcome
  | [] => .parsed tokens
  | line :: rest =>
    let stripped := py_strip line
    if stripped = "" then parse_grammar_lines tokens (i + 1) rest
    else
      match try_match_line stripped.toList with
      | some (kind, vs) =>
        if has_kind tokens kind then
          .failed (create_error_v "SYNTAX_ERROR" ("Duplicate " ++ kind ++ " declaration")
            ⟨some (i + 1), some 1⟩)
        else
          parse_grammar_lines
            (store_kind tokens kind { raw := stripped, values := vs, line := i + 1, column := 1 })
            (i + 1) rest
      | none =>
        .failed (create_error_v "SYNTAX_ERROR" ("Invalid syntax at line " ++ toString (i + 1))
          ⟨some (i + 1), some 1⟩)

/-- `DSLValidator._parse_grammar`. -/
def parse_grammar (text : String) : ParseOutcome :=
  parse_grammar_lines ⟨none, none, none, none⟩ 0 (split_nl [] (py_strip text).toList)

/-- `DSLValidator._validate_structure`.  (Python iterates over the *set*
of required kinds, so when several are missing the reported one depends on
hash order; this embedding uses declaration order.  `len(tokens) > 4` can
never hold — the key space has four elements — and is kept for fidelity.)
Returns `none` when the structure is valid. -/
def validate_structure (t : ParsedTokens) : Option ValidationResult :=
  if t.subject.isNone then
    some (create_error_v "MISSING_REQUIRED_FIELD" "Missing required SUBJECT declaration" ⟨none, none⟩)
  else if t.verb.isNone then
    some (create_error_v "MISSING_REQUIRED_FIELD" "Missing required VERB declaration" ⟨none, none⟩)
  else if t.object.isNone then
    some (create_error_v "MISSING_REQUIRED_FIELD" "Missing required OBJECT declaration" ⟨none, none⟩)
  else if t.meta.isNone then
    some (create_error_v "MISSING_REQUIRED_FIELD" "Missing required META declaration" ⟨none, none⟩)
  else
    let count := [t.subject, t.verb, t.object, t.meta].countP Option.isSome
    if 4 < count then
      some (create_error_v "SYNTAX_ERROR" "Extra declarations beyond required tokens" ⟨none, none⟩)
    else none

/-- The Python message of a tuple-unpacking `ValueError`. -/
def unpack_msg (expected got : Nat) : String :=
  if expected < got then
    "too many values to unpack (expected " ++ toString expected ++ ")"
  else
    "not enough values to unpack (expected " ++ toString expected ++ ", got " ++
      toString got ++ ")"

/-- `SUBJECT_TYPES`. -/
def subject_types : List String := ["USER", "SYSTEM"]

/-- `OBJECT_TYPES`. -/
def object_types : List String := ["FILE", "FOLDER", "EMAIL", "DATASET", "DEVICE"]

/-- `VERB_CLASSES`. -/
def verb_classes : List String := ["MUTATE", "TRANSFORM", "DISSEMINATE"]

/-- `SENSITIVITY_VALUES`. -/
def sensitivity_values : List String := ["LOW", "MEDIUM", "HIGH"]

/-- The location `_create_error` takes from a token dict. -/
def token_loc (t : Token) : Location := ⟨some t.line, some t.column⟩

/-- `DSLValidator._validate_subject`: the two-way unpacking of
`token["values"]` raises `ValueError` on any other arity. -/
def validate_subject (token : Token) : Except PyErr (ValidationResult ⊕ PyVal) :=
  match token.values with
  | [subj_type, identifier] =>
    if !(subject_types.contains subj_type) then
      .ok (.inl (create_error_v "UNKNOWN_SUBJECT_TYPE" ("Unknown subject type: " ++ subj_type)
        (token_loc token)))
    else
      .ok (.inr (.dict [("type", .str subj_type), ("identifier", .str identifier)]))
  | vs => .error (.valueError (unpack_msg 2 vs.length))

/-- `DSLValidator._validate_verb`. -/
def validate_verb (token : Token) : Except PyErr (ValidationResult ⊕ PyVal) :=
  match token.values with
  | [verb_class, action] =>
    if !(verb_classes.contains verb_class) then
      .ok (.inl (create_error_v "UNKNOWN_VERB_CLASS" ("Unknown verb class: " ++ verb_class)
        (token_loc token)))
    else
      .ok (.inr (.dict [("class", .str verb_class), ("action", .str action)]))
  | vs => .error (.valueError (unpack_msg 2 vs.length))

/-- `DSLValidator._validate_object`. -/
def validate_object (token : Token) : Except PyErr (ValidationResult ⊕ PyVal) :=
  match token.values with
  | [obj_type, identifier] =>
    if !(object_types.contains obj_type) then
      .ok (.inl (create_error_v "UNKNOWN_OBJECT_TYPE" ("Unknown object type: " ++ obj_type)
        (token_loc token)))
    else
      .ok (.inr (.dict [("type", .str obj_type), ("identifier", .str identifier)]))
  | vs => .error (.valueError (unpack_msg 2 vs.length))

/-- `re.fullmatch(IDENTIFIER_PATTERN, s)` as a boolean. -/
def fullmatch_ident (s : String) : Bool :=
  !(s == "") && s.toList.all is_ident_char

/-- `DSLValidator._validate_metadata`: destructures `token["values"]` into
**four** names, but a successfully matched META token always carries six
captured groups, so this raises
`ValueError: too many values to unpack (expected 4)`. -/
def validate_metadata (token : Token) : Except PyErr (ValidationResult ⊕ PyVal) :=
  match token.values with
  | [scope, reversible_str, sensitivity, hrc_str] =>
    let reversible := reversible_str == "true"
    if !(sensitivity_values.contains sensitivity) then
      .ok (.inl (create_error_v "INVALID_METADATA_VALUE"
        ("Invalid sensitivity value: " ++ sensitivity) (token_loc token)))
    else
      let hrc_required := hrc_str == "true"
      if !(fullmatch_ident scope) then
        .ok (.inl (create_error_v "AMBIGUOUS_SCOPE"
          ("Invalid or ambiguous scope: " ++ scope) (token_loc token)))
      else
        .ok (.inr (.dict [("scope", .str scope), ("reversible", .bool reversible),
          ("sensitivity", .str sensitivity), ("hrc_required", .bool hrc_required)]))
  | vs => .error (.valueError (unpack_msg 4 vs.length))

/-- `s.lower()` (the grammar's action charset is ASCII). -/
def py_lower (v : PyVal) : Except PyErr String :=
  match v with
  | .str s => .ok (String.map Char.toLower s)
  | _ => .error (.attributeError "object has no attribute \x27lower\x27")

/-- The second Hard-No rule (financial mutation without HRC). -/
def hard_no_financial (verb metadata : PyVal) : Except PyErr (Option ValidationResult) := do
  let verb_class ← py_index verb "class"
  if py_eq_str verb_class "MUTATE" then do
    let action ← py_index verb "action"
    let action_lower ← py_lower action
    if action_lower == "financial" then do
      let sensitivity ← py_index metadata "sensitivity"
      if py_eq_str sensitivity "HIGH" then do
        let hrc_required ← py_index metadata "hrc_required"
        if !truthy hrc_required then
          pure (some (create_error_v "HARD_NO_VIOLATION"
            "High-sensitivity financial mutation requires HRC" ⟨none, none⟩))
        else pure none
      else pure none
    else pure none
  else pure none

/-- `DSLValidator._validate_hard_no`: the two structural Hard-No rules, in
source order and with Python's short-circuit evaluation.  Returns `none`
when no rule fires. -/
def validate_hard_no (verb metadata : PyVal) : Except PyErr (Option ValidationResult) := do
  let action ← py_index verb "action"
  let action_lower ← py_lower action
  if action_lower == "delete" then do
    let reversible ← py_index metadata "reversible"
    if !truthy reversible then
      pure (some (create_error_v "HARD_NO_VIOLATION" "Irreversible deletion is prohibited"
        ⟨none, none⟩))
    else hard_no_financial verb metadata
  else hard_no_financial verb metadata

/-- `DSLValidator.validate_dsl` / the module-level `validate_dsl`. -/
def validate_dsl (input_text : String) : Except PyErr ValidationResult :=
  if input_text == "" || py_isspace input_text then
    .ok (create_error_v "SYNTAX_ERROR" "Empty or whitespace-only input" ⟨none, none⟩)
  else
    match parse_grammar input_text with
    | .failed r => .ok r
    | .parsed tokens =>
      match validate_structure tokens with
      | some r => .ok r
      | none =>
        match tokens.subject, tokens.verb, tokens.object, tokens.meta with
        | some st, some vt, some ot, some mt => do
          let sres ← validate_subject st
          match sres with
          | .inl r => pure r
          | .inr subject => do
            let vres ← validate_verb vt
            match vres with
            | .inl r => pure r
            | .inr verb => do
              let ores ← validate_object ot
              match ores with
              | .inl r => pure r
              | .inr object => do
                let mres ← validate_metadata mt
                match mres with
                | .inl r => pure r
                | .inr metadata => do
                  let hard ← validate_hard_no verb metadata
                  match hard with
                  | some r => pure r
                  | none =>
                    let ast : PyVal := .dict [("subject", subject), ("verb", verb),
                      ("object", object), ("metadata", metadata)]
                    pure { status := "VALID", ast := some ast, error := none }
        | _, _, _, _ => .error (.keyError "\x27SUBJECT\x27")

/-! ### Spec-side notions and concrete sample inputs -/

/-- A required top-level manifest field is absent (first condition of the
integrity gate). -/
def manifest_missing_field (m : PyDict) : Prop :=
  ∃ f ∈ required_fields, lookupD m f = none

/-- `task_id` is present but empty/falsy or not a string (second condition
of the integrity gate). -/
def manifest_bad_task_id (m : PyDict) : Prop :=
  ∃ v, lookupD m "task_id" = some v ∧ (truthy v = false ∨ is_inst_str v = false)

/-- `constraints` is a dict carrying a non-boolean `hrc_required` (third
condition of the integrity gate). -/
def manifest_bad_hrc_flag (m : PyDict) : Prop :=
  ∃ l v, lookupD m "constraints" = some (.dict l) ∧
    lookupD l "hrc_required" = some v ∧ is_inst_bool v = false

/-- A named field of a dict-shaped result envelope. -/
def result_field (v : PyVal) (k : String) : Option PyVal :=
  match v with
  | .dict l => lookupD l k
  | _ => none

/-- Boolean key-distinctness check (so witnesses can discharge it by
`rfl`). -/
def distinct_keys : List String → Bool
  | [] => true
  | k :: rest => !(rest.contains k) && distinct_keys rest

/-- Keys are pairwise distinct at the top level of an AST dict and inside
each of its dict-valued sections. -/
def ast_keys_ok (a : PyDict) : Bool :=
  distinct_keys (a.map Prod.fst) &&
    a.all (fun p =>
      match p.2 with
      | .dict l => distinct_keys (l.map Prod.fst)
      | _ => true)

/-- Two AST section values carry identical entries whose keys were
inserted in different orders: both are dicts and one entry list is a
permutation of the other. -/
def section_reordered (v w : PyVal) : Prop :=
  ∃ l1 l2, v = .dict l1 ∧ w = .dict l2 ∧ l1.Perm l2

/-- Two ASTs carry identical field values with mapping keys inserted in
different orders: entry-by-entry the same keys with `section_reordered`
values, up to a permutation of the top-level entries. -/
def ast_reordered (a1 a2 : PyDict) : Prop :=
  ∃ mid : PyDict,
    List.Forall₂ (fun p q => p.1 = q.1 ∧ section_reordered p.2 q.2) a1 mid ∧
    mid.Perm a2

/-- Relates the results of two dict lookups: both absent, or both present
with `section_reordered` values. -/
def opt_rel (o1 o2 : Option PyVal) : Prop :=
  (o1 = none ∧ o2 = none) ∨
    ∃ v w, o1 = some v ∧ o2 = some w ∧ section_reordered v w

/-- The strict key order used to show sorted permutations coincide. -/
def key_lt (p q : String × PyVal) : Prop := p.1 < q.1

instance : IsTotal (String × PyVal) key_le := ⟨fun a b => le_total a.1 b.1⟩

instance : IsTrans (String × PyVal) key_le := ⟨fun _ _ _ => le_trans⟩

instance : IsAntisymm (String × PyVal) key_lt :=
  ⟨fun _ _ h1 h2 => absurd (lt_trans h1 h2) (lt_irrefl _)⟩

/-- Reverses the entry order inside every dict-valued entry (used to build
a concrete reordered AST). -/
def rev_sections (a : PyDict) : PyDict :=
  a.map fun p =>
    (p.1, match p.2 with
      | .dict l => .dict l.reverse
      | v => v)

/-- A concrete well-formed AST. -/
def c3_ast1 : PyDict :=
  [("subject", .dict [("type", .str "USER"), ("identifier", .str "user123")]),
   ("verb", .dict [("class", .str "MUTATE"), ("action", .str "move")]),
   ("object", .dict [("type", .str "FILE"), ("identifier", .str "/docs/receipt")]),
   ("metadata", .dict [("scope", .str "tax_2024"), ("reversible", .bool true),
     ("sensitivity", .str "MEDIUM"), ("hrc_required", .bool false)])]

/-- The same AST with every insertion order reversed, inside each section
and at the top level. -/
def c3_ast2 : PyDict := (rev_sections c3_ast1).reverse

/-- `1/2`, written so that kernel reduction works (`Rat` division does not
reduce definitionally). -/
def rat_half : Rat := ⟨1, 2, by decide, by decide⟩

/-- `0.3`. -/
def rat_03 : Rat := ⟨3, 10, by decide, by decide⟩

/-- `0.8`. -/
def rat_08 : Rat := ⟨4, 5, by decide, by decide⟩

/-- `123.456`, the fractional timestamp of the repository's own test. -/
def rat_123_456 : Rat := ⟨15432, 125, by decide, by decide⟩

/-- A well-formed sample manifest (the repository's lease-manager test
fixture). -/
def sample_manifest : PyDict :=
  [("task_id", .str "test-task-123"),
   ("capability_id", .str "FILE_MOVE"),
   ("inputs", .dict [("subject_identifier", .str "user123"),
     ("object_identifier", .str "/docs/test.pdf"), ("action", .str "move")]),
   ("constraints", .dict [("scope", .str "test"), ("reversible", .bool true),
     ("sensitivity", .str "MEDIUM"), ("hrc_required", .bool false)]),
   ("provenance", .dict [("ast_hash", .str "abc123")])]

/-- `sample_manifest` with the `provenance` field removed. -/
def manifest_no_provenance : PyDict :=
  [("task_id", .str "test-task-123"),
   ("capability_id", .str "FILE_MOVE"),
   ("inputs", .dict []),
   ("constraints", .dict [("hrc_required", .bool false)])]

/-- `{"trust_score": 0.8, "minimum_required": 0.5}`. -/
def trust_pass : PyDict :=
  [("trust_score", .float rat_08), ("minimum_required", .float rat_half)]

/-- `{"trust_score": 0.5, "minimum_required": 0.5}` (the boundary case). -/
def trust_equal : PyDict :=
  [("trust_score", .float rat_half), ("minimum_required", .float rat_half)]

/-- `{"trust_score": 0.3, "minimum_required": 0.5}`. -/
def trust_low : PyDict :=
  [("trust_score", .float rat_03), ("minimum_required", .float rat_half)]

/-- A confirmed HRC token. -/
def hrc_confirmed : PyDict := [("confirmed", .bool true), ("confirmed_at", .int 90)]

/-- The DSL input of the spec's first scenario. -/
def c1_input : String :=
  "SUBJECT(USER,u1)\nVERB(MUTATE,move)\nOBJECT(FILE,/a.pdf)\nMETA(s,true,MEDIUM,false)"

/-- The AST that scenario intends (hand-built, since the validator never
produces it). -/
def c1_ast : PyVal :=
  .dict [("subject", .dict [("type", .str "USER"), ("identifier", .str "u1")]),
    ("verb", .dict [("class", .str "MUTATE"), ("action", .str "move")]),
    ("object", .dict [("type", .str "FILE"), ("identifier", .str "/a.pdf")]),
    ("metadata", .dict [("scope", .str "s"), ("reversible", .bool true),
      ("sensitivity", .str "MEDIUM"), ("hrc_required", .bool false)])]

/-- The financial Hard-No scenario with `hrc_required=false` (identifiers
kept inside the grammar's charset). -/
def c5_input_no_hrc : String :=
  "SUBJECT(USER,test)\nVERB(MUTATE,financial)\nOBJECT(FILE,account)\nMETA(banking,true,HIGH,false)"

/-- The same scenario with `hrc_required=true`. -/
def c5_input_hrc : String :=
  "SUBJECT(USER,test)\nVERB(MUTATE,financial)\nOBJECT(FILE,account)\nMETA(banking,true,HIGH,true)"

/-- An AST whose capability key `MUTATE:FILE:shred` is not in the table. -/
def c7_ast : PyVal :=
  .dict [("subject", .dict [("type", .str "USER"), ("identifier", .str "u1")]),
    ("verb", .dict [("class", .str "MUTATE"), ("action", .str "shred")]),
    ("object", .dict [("type", .str "FILE"), ("identifier", .str "/a/b")]),
    ("metadata", .dict [("scope", .str "s"), ("reversible", .bool true),
      ("sensitivity", .str "LOW"), ("hrc_required", .bool false)])]

/-! ## Theorems

First the shared lemmas about the Lease Manager's gate chain, then one
theorem (plus witness or counterexample) per claim of the specification
review. -/

@[simp] theorem create_error_status (c msg : String) :
    (create_error c msg).status = "DENIED" := rfl

@[simp] theorem create_error_error (c msg : String) :
    (create_error c msg).error = some { error_code := c, message := msg } := rfl

@[simp] theorem pass_decision_status : pass_decision.status = "GRANTED" := rfl

@[simp] theorem grant_lease_status (m : PyDict) (now : PyVal) :
    (grant_lease m now).status = "GRANTED" := rfl

@[simp] theorem grant_lease_lease (m : PyDict) (now : PyVal) :
    (grant_lease m now).lease = some (lease_fields m now) := rfl

/-- `evaluate_lease` written as explicit binds, for rewriting. -/
theorem evaluate_lease_eq (m t : PyDict) (now : PyVal) (hrc : Option PyDict) :
    evaluate_lease m t now hrc =
      (check_manifest_integrity m).bind (fun ic =>
        if ic.status = "DENIED" then .ok ic
        else if (check_time_window now).status = "DENIED" then .ok (check_time_window now)
        else if (check_trust_threshold t).status = "DENIED" then .ok (check_trust_threshold t)
        else (check_hrc_requirement m hrc).bind (fun hc =>
          if hc.status = "DENIED" then .ok hc else .ok (grant_lease m now))) := rfl

/-- The integrity gate yields the pass marker or a denial. -/
theorem integrity_shape (m : PyDict) (d : LeaseDecision)
    (h : check_manifest_integrity m = .ok d) :
    d = pass_decision ∨ d.status = "DENIED" := by
  unfold check_manifest_integrity at h
  dsimp only at h
  simp only [py_contains, py_index, bind, Except.bind, pure] at h
  repeat' split at h
  all_goals try exact Or.inl (by cases h; rfl)
  all_goals try exact Or.inr (by cases h; rfl)
  all_goals cases h

/-- The time-window gate passes exactly on a non-negative `int`. -/
theorem time_window_pass (now : PyVal) :
    check_time_window now = pass_decision ↔
      is_inst_int now = true ∧ 0 ≤ int_of now := by
  constructor
  · intro h
    unfold check_time_window at h
    split at h
    · exact absurd h (by simp [create_error, pass_decision])
    · split at h
      · exact absurd h (by simp [create_error, pass_decision])
      · next h1 h2 => exact ⟨by simpa using h1, by omega⟩
  · rintro ⟨h1, h2⟩
    unfold check_time_window
    rw [if_neg (by simp [h1]), if_neg (by omega)]

/-- The time-window gate yields the pass marker or a denial. -/
theorem time_shape (now : PyVal) :
    check_time_window now = pass_decision ∨
      ∃ msg, check_time_window now = create_error "LEASE_EXPIRED" msg := by
  unfold check_time_window
  repeat' split
  all_goals first
    | exact Or.inl rfl
    | exact Or.inr ⟨_, rfl⟩

/-- The trust gate yields the pass marker or a denial. -/
theorem trust_shape (t : PyDict) :
    check_trust_threshold t = pass_decision ∨
      (check_trust_threshold t).status = "DENIED" := by
  unfold check_trust_threshold
  dsimp only
  repeat' split
  all_goals first
    | exact Or.inl rfl
    | exact Or.inr rfl

/-- The HRC gate yields the pass marker or a denial. -/
theorem hrc_shape (m : PyDict) (hrc : Option PyDict) (d : LeaseDecision)
    (h : check_hrc_requirement m hrc = .ok d) :
    d = pass_decision ∨ d.status = "DENIED" := by
  unfold check_hrc_requirement at h
  dsimp only at h
  simp only [py_get_method, bind, Except.bind, pure] at h
  repeat' split at h
  all_goals try exact Or.inl (by cases h; rfl)
  all_goals try exact Or.inr (by cases h; rfl)
  all_goals cases h

/-- Inversion of a granted evaluation: the decision is exactly the grant,
every gate passed, and `now` is a non-negative `int`. -/
theorem evaluate_granted_inv (m t : PyDict) (now : PyVal) (hrc : Option PyDict)
    (hg : decision_status (evaluate_lease m t now hrc) = some "GRANTED") :
    evaluate_lease m t now hrc = .ok (grant_lease m now) ∧
    check_manifest_integrity m = .ok pass_decision ∧
    is_inst_int now = true ∧ 0 ≤ int_of now := by
  rw [evaluate_lease_eq] at hg ⊢
  cases hic : check_manifest_integrity m with
  | error e => rw [hic] at hg; simp [Except.bind, decision_status] at hg
  | ok ic =>
    rw [hic] at hg
    rcases integrity_shape m ic hic with hpass | hden
    · subst hpass
      simp only [Except.bind, pass_decision_status, reduceIte,
        String.reduceEq, if_false] at hg ⊢
      rcases time_shape now with htp | ⟨msg, htd⟩
      · rw [htp] at hg ⊢
        simp only [pass_decision_status, String.reduceEq, if_false] at hg ⊢
        rcases trust_shape t with hrp | hrd
        · rw [hrp] at hg ⊢
          simp only [pass_decision_status, String.reduceEq, if_false] at hg ⊢
          cases hhc : check_hrc_requirement m hrc with
          | error e => rw [hhc] at hg; simp [Except.bind, decision_status] at hg
          | ok hc =>
            rw [hhc] at hg
            rcases hrc_shape m hrc hc hhc with hcp | hcd
            · subst hcp
              refine ⟨by simp [Except.bind], by first | rfl | trivial, ?_⟩
              exact (time_window_pass now).mp htp
            · simp [Except.bind, hcd, decision_status] at hg
        · simp [hrd, decision_status] at hg
      · rw [htd] at hg
        simp [decision_status] at hg
    · simp [Except.bind, hden, decision_status] at hg

/-- Any of the three integrity-gate failure conditions makes
`_check_manifest_integrity` return an `INVALID_MANIFEST` denial. -/
theorem integrity_denies (m : PyDict)
    (hm : manifest_missing_field m ∨ manifest_bad_task_id m ∨ manifest_bad_hrc_flag m) :
    ∃ msg, check_manifest_integrity m = .ok (create_error "INVALID_MANIFEST" msg) := by
  unfold check_manifest_integrity
  cases hf : required_fields.find? (fun f => (lookupD m f).isNone) with
  | some f => exact ⟨_, rfl⟩
  | none =>
    have hall := List.find?_eq_none.mp hf
    dsimp only
    rcases hm with ⟨f, hfm, hfn⟩ | ⟨v, hv, hb⟩ | ⟨l, v, hc, hl, hb⟩
    · exact absurd (by simp [hfn] : (lookupD m f).isNone = true) (by simpa using hall f hfm)
    · rw [hv]
      have hcond : (!truthy v || !is_inst_str v) = true := by
        rcases hb with h | h <;> simp [h]
      simp only [Option.getD]
      rw [if_pos hcond]
      exact ⟨_, rfl⟩
    · by_cases htid : (!truthy ((lookupD m "task_id").getD .pynone) ||
        !is_inst_str ((lookupD m "task_id").getD .pynone)) = true
      · rw [if_pos htid]
        exact ⟨_, rfl⟩
      · rw [if_neg htid, hc]
        simp only [Option.getD, py_contains, hl, Option.isSome, bind, Except.bind,
          py_index, if_true]
        rw [if_pos (by simp [hb] : (!is_inst_bool v) = true)]
        exact ⟨_, rfl⟩

/-- Claim C4: a manifest failing the integrity gate (missing required
field, empty or non-string `task_id`, or present non-boolean
`constraints.hrc_required`) makes `evaluate_lease` return `DENIED` with
error code `INVALID_MANIFEST`, and the whole decision is the same for
every `trust_snapshot`, `now` and `hrc_token`: a gate-1 denial never
depends on inputs consumed only by the later gates. -/
theorem c4_invalid_manifest_fail_closed
    (m t t2 : PyDict) (now now2 : PyVal) (hrc hrc2 : Option PyDict)
    (hm : manifest_missing_field m ∨ manifest_bad_task_id m ∨ manifest_bad_hrc_flag m) :
    decision_status (evaluate_lease m t now hrc) = some "DENIED" ∧
    decision_error_code (evaluate_lease m t now hrc) = some "INVALID_MANIFEST" ∧
    evaluate_lease m t now hrc = evaluate_lease m t2 now2 hrc2 := by
  obtain ⟨msg, hmsg⟩ := integrity_denies m hm
  have he : ∀ (t' : PyDict) (now' : PyVal) (h' : Option PyDict),
      evaluate_lease m t' now' h' = .ok (create_error "INVALID_MANIFEST" msg) := by
    intro t' now' h'
    rw [evaluate_lease_eq, hmsg]
    simp [Except.bind]
  exact ⟨by rw [he]; rfl, by rw [he]; rfl, by rw [he, he]⟩

/-- Witness for C4: a manifest missing `provenance` is denied with
`INVALID_MANIFEST` identically across unrelated trust, time and HRC
inputs. -/
theorem c4_witness :
    decision_status (evaluate_lease manifest_no_provenance trust_pass (.int 100) none) =
      some "DENIED" ∧
    decision_error_code (evaluate_lease manifest_no_provenance trust_pass (.int 100) none) =
      some "INVALID_MANIFEST" ∧
    evaluate_lease manifest_no_provenance trust_pass (.int 100) none =
      evaluate_lease manifest_no_provenance trust_low (.float rat_123_456) (some hrc_confirmed) :=
  c4_invalid_manifest_fail_closed manifest_no_provenance trust_pass trust_low (.int 100)
    (.float rat_123_456) none (some hrc_confirmed)
    (Or.inl ⟨"provenance", by decide, rfl⟩)

/-- Claim C6: when the manifest and `now` pass the first two gates and the
trust snapshot carries numeric `trust_score` and `minimum_required`, the
trust gate passes iff `trust_score >= minimum_required` (inclusive
boundary), and a below-threshold score makes `evaluate_lease` return
`DENIED` with error code `INSUFFICIENT_TRUST`. -/
theorem c6_trust_threshold_inclusive
    (m t : PyDict) (now : PyVal) (hrc : Option PyDict) (ts mr : PyVal)
    (hi : check_manifest_integrity m = .ok pass_decision)
    (htw : check_time_window now = pass_decision)
    (hts : lookupD t "trust_score" = some ts)
    (hmr : lookupD t "minimum_required" = some mr)
    (hnts : is_numeric ts = true) (hnmr : is_numeric mr = true) :
    ((check_trust_threshold t).status = "GRANTED" ↔ num_of mr ≤ num_of ts) ∧
    (num_of ts < num_of mr →
      decision_status (evaluate_lease m t now hrc) = some "DENIED" ∧
      decision_error_code (evaluate_lease m t now hrc) = some "INSUFFICIENT_TRUST") := by
  have hct : check_trust_threshold t =
      if num_of ts < num_of mr then
        create_error "INSUFFICIENT_TRUST"
          ("Trust score " ++ py_str ts ++ " below minimum " ++ py_str mr)
      else pass_decision := by
    unfold check_trust_threshold
    simp only [List.find?, hts, hmr, Option.isNone_some, Option.getD]
    rw [if_neg (by simp [hnts]), if_neg (by simp [hnmr])]
  constructor
  · rw [hct]
    by_cases hlt : num_of ts < num_of mr
    · rw [if_pos hlt]
      exact iff_of_false (by simp [create_error]) (not_le.mpr hlt)
    · rw [if_neg hlt]
      exact iff_of_true rfl (not_lt.mp hlt)
  · intro hlt
    have he : evaluate_lease m t now hrc =
        .ok (create_error "INSUFFICIENT_TRUST"
          ("Trust score " ++ py_str ts ++ " below minimum " ++ py_str mr)) := by
      rw [evaluate_lease_eq, hi]
      simp only [Except.bind, pass_decision_status]
      rw [htw, hct, if_pos hlt]
      simp [pass_decision]
    exact ⟨by rw [he]; rfl, by rw [he]; rfl⟩

/-- Witness for C6: `trust_score = 0.5, minimum_required = 0.5` passes the
trust gate (inclusive boundary), and `trust_score = 0.3` yields
`DENIED/INSUFFICIENT_TRUST`. -/
theorem c6_witness :
    ((check_trust_threshold trust_equal).status = "GRANTED" ∧
      num_of (.float rat_half) ≤ num_of (.float rat_half)) ∧
    (decision_status (evaluate_lease sample_manifest trust_low (.int 100) none) =
        some "DENIED" ∧
      decision_error_code (evaluate_lease sample_manifest trust_low (.int 100) none) =
        some "INSUFFICIENT_TRUST") := by
  constructor
  · have h := c6_trust_threshold_inclusive sample_manifest trust_equal (.int 100) none
      (.float rat_half) (.float rat_half) rfl rfl rfl rfl rfl rfl
    exact ⟨h.1.mpr (le_refl _), le_refl _⟩
  · have h := c6_trust_threshold_inclusive sample_manifest trust_low (.int 100) none
      (.float rat_03) (.float rat_half) rfl rfl rfl rfl rfl rfl
    have hlt : num_of (.float rat_03) < num_of (.float rat_half) := by decide
    exact h.2 hlt

/-- Claim C9: once the manifest passes the integrity gate, a `now` that is
not an `int` (Python-wise) or is negative makes `evaluate_lease` return
`DENIED` with error code `LEASE_EXPIRED` — not `INVALID_MANIFEST` —
regardless of the trust snapshot and HRC token supplied. -/
theorem c9_malformed_now_lease_expired
    (m t t2 : PyDict) (now : PyVal) (hrc hrc2 : Option PyDict)
    (hi : check_manifest_integrity m = .ok pass_decision)
    (hbad : is_inst_int now = false ∨ int_of now < 0) :
    decision_status (evaluate_lease m t now hrc) = some "DENIED" ∧
    decision_error_code (evaluate_lease m t now hrc) = some "LEASE_EXPIRED" ∧
    evaluate_lease m t now hrc = evaluate_lease m t2 now hrc2 := by
  have hden : ∃ msg, check_time_window now = create_error "LEASE_EXPIRED" msg := by
    rcases time_shape now with hp | h
    · exfalso
      have hpass := (time_window_pass now).mp hp
      rcases hbad with h | h
      · rw [hpass.1] at h; cases h
      · omega
    · exact h
  obtain ⟨msg, hmsg⟩ := hden
  have he : ∀ (t' : PyDict) (h' : Option PyDict),
      evaluate_lease m t' now h' = .ok (create_error "LEASE_EXPIRED" msg) := by
    intro t' h'
    rw [evaluate_lease_eq, hi]
    simp only [Except.bind, pass_decision_status]
    rw [hmsg]
    simp [pass_decision]
  exact ⟨by rw [he]; rfl, by rw [he]; rfl, by rw [he, he]⟩

/-- Witness for C9: a fractional `now` (123.456, as in the repository's
test) and a negative `now` are both denied with `LEASE_EXPIRED` on a
manifest that passes the integrity gate. -/
theorem c9_witness :
    (decision_status (evaluate_lease sample_manifest trust_pass (.float rat_123_456) none) =
        some "DENIED" ∧
      decision_error_code (evaluate_lease sample_manifest trust_pass (.float rat_123_456) none) =
        some "LEASE_EXPIRED") ∧
    (decision_status (evaluate_lease sample_manifest trust_pass (.int (-1)) (some hrc_confirmed)) =
        some "DENIED" ∧
      decision_error_code
          (evaluate_lease sample_manifest trust_pass (.int (-1)) (some hrc_confirmed)) =
        some "LEASE_EXPIRED") := by
  have h1 := c9_malformed_now_lease_expired sample_manifest trust_pass trust_low
    (.float rat_123_456) none none rfl (Or.inl rfl)
  have h2 := c9_malformed_now_lease_expired sample_manifest trust_pass trust_low
    (.int (-1)) (some hrc_confirmed) none rfl (Or.inr (by decide))
  exact ⟨⟨h1.1, h1.2.1⟩, ⟨h2.1, h2.2.1⟩⟩

/-- On an `int`-typed value (`int` or `bool`), `num_of` is the cast of
`int_of`. -/
theorem num_of_of_inst_int (x : PyVal) (hx : is_inst_int x = true) :
    num_of x = (int_of x : Rat) := by
  cases x with
  | int n => simp [num_of, int_of]
  | bool b => cases b <;> simp [num_of, int_of]
  | str s => simp [is_inst_int] at hx
  | float q => simp [is_inst_int] at hx
  | pynone => simp [is_inst_int] at hx
  | dict l => simp [is_inst_int] at hx

/-- `int`-typed values are numeric. -/
theorem is_numeric_of_inst_int (x : PyVal) (hx : is_inst_int x = true) :
    is_numeric x = true := by
  cases x <;> simp_all [is_inst_int, is_numeric]

/-- `py_gt` on two numeric values compares their numeric values. -/
theorem py_gt_num (a b : PyVal) (ha : is_numeric a = true) (hb : is_numeric b = true) :
    py_gt a b = .ok (decide (num_of b < num_of a)) := by
  unfold py_gt
  rw [ha, hb]
  rfl

/-- A lease freshly built by `_grant_lease` at an `int` time `now`
verifies at every `int` instant `v` with
`issued_at <= v <= expires_at` — including `v = expires_at` itself, since
`verify_lease` only rejects `now > expires_at`. -/
theorem verify_lease_fields (m : PyDict) (now v : PyVal)
    (hn : is_inst_int now = true) (hv : is_inst_int v = true)
    (h1 : int_of now ≤ int_of v) (h2 : int_of v ≤ int_of now + lease_duration) :
    verify_lease (lease_fields m now) v = true := by
  have hnumv := is_numeric_of_inst_int v hv
  have hnumn := is_numeric_of_inst_int now hn
  have hvc := num_of_of_inst_int v hv
  have hnc := num_of_of_inst_int now hn
  have hgt1 : ¬ (num_of (PyVal.int (int_of now + lease_duration)) < num_of v) := by
    rw [hvc]
    simp only [num_of]
    exact_mod_cast not_lt.mpr h2
  have hgt2 : ¬ (num_of v < num_of now) := by
    rw [hvc, hnc]
    exact_mod_cast not_lt.mpr h1
  have e1 : py_index (.dict (lease_fields m now)) "task_id" =
      .ok ((lookupD m "task_id").getD .pynone) := rfl
  have e2 : py_index (.dict (lease_fields m now)) "issued_at" = .ok now := rfl
  have e3 : py_index (.dict (lease_fields m now)) "expires_at" =
      .ok (.int (int_of now + lease_duration)) := rfl
  have e4 : py_index (.dict (lease_fields m now)) "signature" =
      .ok (.str (generate_signature ((lookupD m "task_id").getD .pynone) now
        (.int (int_of now + lease_duration)))) := rfl
  rw [verify_lease, verify_lease_body]
  rw [e1, e2, e3]
  simp only [bind, Except.bind]
  rw [e4]
  simp only [py_ne_str, beq_self_eq_true, Bool.not_true, if_false,
    py_gt_num v (.int (int_of now + lease_duration)) hnumv rfl,
    py_gt_num now v hnumn hnumv,
    decide_eq_false hgt1, decide_eq_false hgt2]
  rfl

/-- A manifest passing the integrity gate carries a non-empty string
`task_id`. -/
theorem integrity_pass_task_id (m : PyDict)
    (h : check_manifest_integrity m = .ok pass_decision) :
    ∃ tid, lookupD m "task_id" = some tid ∧ truthy tid = true ∧ is_inst_str tid = true := by
  unfold check_manifest_integrity at h
  cases hf : required_fields.find? (fun f => (lookupD m f).isNone) with
  | some f =>
    rw [hf] at h
    exact absurd h (by simp [create_error, pass_decision])
  | none =>
    rw [hf] at h
    dsimp only at h
    have hall := List.find?_eq_none.mp hf
    have hne : lookupD m "task_id" ≠ none := by
      simpa using hall "task_id" (by decide)
    obtain ⟨tid, htid⟩ := Option.isSome_iff_exists.mp (Option.isSome_iff_ne_none.mpr hne)
    rw [htid] at h
    simp only [Option.getD] at h
    by_cases hc : (!truthy tid || !is_inst_str tid) = true
    · rw [if_pos hc] at h
      exact absurd h (by simp [create_error, pass_decision])
    · cases htr : truthy tid with
      | false => exact absurd (by simp [htr]) hc
      | true =>
        cases hstr : is_inst_str tid with
        | false => exact absurd (by simp [hstr]) hc
        | true => exact ⟨tid, htid, htr, hstr⟩

/-- Claim C8: every lease granted by `evaluate_lease` has `task_id` equal
to the manifest's `task_id`, `issued_at` equal to the `now` argument,
`expires_at` equal to `issued_at + 300`, and `signature` equal to the
HMAC-SHA256 digest, under the manager's secret key, of the UTF-8 string
`"{task_id}:{issued_at}:{expires_at}"`. -/
theorem c8_lease_token_shape (m t : PyDict) (now : PyVal) (hrc : Option PyDict)
    (hg : decision_status (evaluate_lease m t now hrc) = some "GRANTED") :
    ∃ tid, lookupD m "task_id" = some tid ∧
      decision_lease (evaluate_lease m t now hrc) = some (lease_fields m now) ∧
      lookupD (lease_fields m now) "task_id" = some tid ∧
      lookupD (lease_fields m now) "issued_at" = some now ∧
      lookupD (lease_fields m now) "expires_at" = some (.int (int_of now + 300)) ∧
      lookupD (lease_fields m now) "signature" = some (.str (hmac_sha256_hex secret_key
        (str_to_utf8 (py_str tid ++ ":" ++ py_str now ++ ":" ++
          py_str (.int (int_of now + 300)))))) := by
  obtain ⟨heval, hint, hni, hn0⟩ := evaluate_granted_inv m t now hrc hg
  obtain ⟨tid, htid, _, _⟩ := integrity_pass_task_id m hint
  refine ⟨tid, htid, by rw [heval]; rfl, ?_, ?_, ?_, ?_⟩ <;>
    simp [lease_fields, lookupD, htid, lease_duration, generate_signature]

/-- Witness for C8: a concrete granted lease has exactly the claimed
field values. -/
theorem c8_witness :
    decision_status (evaluate_lease sample_manifest trust_pass (.int 7) none) =
      some "GRANTED" ∧
    ∃ tid, lookupD sample_manifest "task_id" = some tid ∧
      decision_lease (evaluate_lease sample_manifest trust_pass (.int 7) none) =
        some (lease_fields sample_manifest (.int 7)) ∧
      lookupD (lease_fields sample_manifest (.int 7)) "task_id" = some tid ∧
      lookupD (lease_fields sample_manifest (.int 7)) "issued_at" = some (.int 7) ∧
      lookupD (lease_fields sample_manifest (.int 7)) "expires_at" =
        some (.int (int_of (.int 7) + 300)) ∧
      lookupD (lease_fields sample_manifest (.int 7)) "signature" =
        some (.str (hmac_sha256_hex secret_key
          (str_to_utf8 (py_str tid ++ ":" ++ py_str (.int 7) ++ ":" ++
            py_str (.int (int_of (.int 7) + 300)))))) :=
  ⟨rfl, c8_lease_token_shape sample_manifest trust_pass (.int 7) none rfl⟩

/-- Claim C10: a lease granted by `evaluate_lease` at time `now` verifies
(`verify_lease` returns `true`) at that same instant. -/
theorem c10_granted_lease_verifies (m t : PyDict) (now : PyVal) (hrc : Option PyDict)
    (hg : decision_status (evaluate_lease m t now hrc) = some "GRANTED") :
    ∃ L, decision_lease (evaluate_lease m t now hrc) = some L ∧
      verify_lease L now = true := by
  obtain ⟨heval, hint, hni, hn0⟩ := evaluate_granted_inv m t now hrc hg
  refine ⟨lease_fields m now, by rw [heval]; rfl, ?_⟩
  exact verify_lease_fields m now now hni hni (le_refl _)
    (by unfold lease_duration; omega)

/-- Witness for C10: a concrete granted lease verifies at its issuance
instant. -/
theorem c10_witness :
    decision_status (evaluate_lease sample_manifest trust_pass (.int 100) (some hrc_confirmed)) =
      some "GRANTED" ∧
    ∃ L, decision_lease (evaluate_lease sample_manifest trust_pass (.int 100) (some hrc_confirmed)) =
        some L ∧ verify_lease L (.int 100) = true :=
  ⟨rfl, c10_granted_lease_verifies sample_manifest trust_pass (.int 100) (some hrc_confirmed) rfl⟩

/-- Claim C2 (amended): a lease freshly issued by `evaluate_lease` at time
`now` still verifies at the exact instant `now == expires_at`;
`verify_lease` only rejects strictly after expiry (`now > expires_at`). -/
theorem c2_amended_verifies_at_expiry (m t : PyDict) (now : PyVal) (hrc : Option PyDict)
    (hg : decision_status (evaluate_lease m t now hrc) = some "GRANTED") :
    ∃ L, decision_lease (evaluate_lease m t now hrc) = some L ∧
      lookupD L "expires_at" = some (.int (int_of now + 300)) ∧
      verify_lease L (.int (int_of now + 300)) = true := by
  obtain ⟨heval, hint, hni, hn0⟩ := evaluate_granted_inv m t now hrc hg
  refine ⟨lease_fields m now, by rw [heval]; rfl, ?_, ?_⟩
  · simp [lease_fields, lookupD, lease_duration]
  · exact verify_lease_fields m now (.int (int_of now + 300)) hni rfl
      (by simp [int_of]; try omega)
      (by simp [int_of, lease_duration])

/-- Witness for the amended C2: a concrete fresh lease still verifies at
its own `expires_at`. -/
theorem c2_witness :
    decision_status (evaluate_lease sample_manifest trust_equal (.int 50) none) =
      some "GRANTED" ∧
    ∃ L, decision_lease (evaluate_lease sample_manifest trust_equal (.int 50) none) =
        some L ∧
      lookupD L "expires_at" = some (.int (int_of (.int 50) + 300)) ∧
      verify_lease L (.int (int_of (.int 50) + 300)) = true :=
  ⟨rfl, c2_amended_verifies_at_expiry sample_manifest trust_equal (.int 50) none rfl⟩

/-- Counterexample to C2 as stated: the lease issued at `now = 100`
(expiring at 400) is passed to `verify_lease` at exactly `now = 400`, and
verification returns `true`, not the claimed `false`. -/
theorem c2_counterexample :
    decision_status (evaluate_lease sample_manifest trust_pass (.int 100) none) =
      some "GRANTED" ∧
    decision_lease (evaluate_lease sample_manifest trust_pass (.int 100) none) =
      some (lease_fields sample_manifest (.int 100)) ∧
    lookupD (lease_fields sample_manifest (.int 100)) "expires_at" = some (.int 400) ∧
    verify_lease (lease_fields sample_manifest (.int 100)) (.int 400) = true := by
  refine ⟨rfl, rfl, rfl, ?_⟩
  exact verify_lease_fields sample_manifest (.int 100) (.int 400) rfl rfl
    (by decide) (by unfold lease_duration; decide)

/-- Claim C1 (evaluation at the claimed input): the four-line scenario DSL
is *not* VALID — `/a.pdf` contains `.`, which is outside the identifier
character class, so line 3 fails `re.fullmatch` and `validate_dsl` returns
`SYNTAX_ERROR`; and even the AST the scenario intends compiles to
`UNKNOWN_CAPABILITY`, not `FILE_MOVE`, because the case-preserved action
`move` builds the key `MUTATE:FILE:move` while the capability table's key
is `MUTATE:FILE:MOVE`. -/
theorem c1_scenario_fails :
    validate_dsl c1_input =
      .ok (create_error_v "SYNTAX_ERROR" "Invalid syntax at line 3" ⟨some 3, some 1⟩) ∧
    compile_ast c1_ast =
      .dict [("status", .str "FAILURE"), ("capability_id", .pynone),
        ("error", create_error_compile "UNKNOWN_CAPABILITY"
          "No capability found for: MUTATE:FILE:move")] ∧
    result_field (compile_ast c1_ast) "manifest" = none :=
  ⟨rfl, rfl, rfl⟩

/-- Claim C5 (evaluation at the claimed inputs): the financial Hard-No
scenario never reaches the Hard-No check — the META pattern captures six
groups (each `({BOOLEAN_PATTERN})` captures twice) and
`_validate_metadata` unpacks them into four names, so `validate_dsl`
raises `ValueError` instead of returning `HARD_NO_VIOLATION` (with
`hrc_required=false`) or `VALID` (with `hrc_required=true`). -/
theorem c5_hard_no_unreachable :
    validate_dsl c5_input_no_hrc =
      .error (.valueError "too many values to unpack (expected 4)") ∧
    validate_dsl c5_input_hrc =
      .error (.valueError "too many values to unpack (expected 4)") ∧
    match_meta "META(banking,true,HIGH,false)".toList =
      some ["banking", "true", "true", "HIGH", "false", "false"] :=
  ⟨rfl, rfl, rfl⟩

/-- Claim C7 (evaluation at a failing input): for the unmapped key
`MUTATE:FILE:shred`, `compile_ast` returns `_resolve_capability`s internal
dict — status `FAILURE` and a nested `UNKNOWN_CAPABILITY` error record,
but with a `capability_id` key where the claimed `manifest = None` should
be: the envelope has *no* `manifest` key at all, so `result["manifest"]`
raises `KeyError`. -/
theorem c7_unknown_capability_envelope :
    compile_ast c7_ast =
      .dict [("status", .str "FAILURE"), ("capability_id", .pynone),
        ("error", create_error_compile "UNKNOWN_CAPABILITY"
          "No capability found for: MUTATE:FILE:shred")] ∧
    result_field (compile_ast c7_ast) "status" = some (.str "FAILURE") ∧
    result_field (compile_ast c7_ast) "manifest" = none ∧
    result_field (compile_ast c7_ast) "capability_id" = some .pynone ∧
    result_field (result_field (compile_ast c7_ast) "error" |>.getD .pynone) "error" =
      some (.dict [("error_code", .str "UNKNOWN_CAPABILITY"),
        ("message", .str "No capability found for: MUTATE:FILE:shred")]) :=
  ⟨rfl, rfl, rfl, rfl, rfl⟩

/-! Lemmas for claim C3 (canonical-order invariance). -/

/-- `distinct_keys` decides `Nodup`. -/
theorem distinct_keys_iff (l : List String) : distinct_keys l = true ↔ l.Nodup := by
  induction l with
  | nil => simp [distinct_keys]
  | cons k rest ih => simp [distinct_keys, ih, List.nodup_cons]

/-- A successful lookup is membership. -/
theorem lookupD_mem {l : PyDict} {k : String} {v : PyVal}
    (h : lookupD l k = some v) : (k, v) ∈ l := by
  induction l with
  | nil => cases h
  | cons p rest ih =>
    obtain ⟨pk, pv⟩ := p
    unfold lookupD at h
    split at h
    · next heq =>
      subst heq
      cases h
      exact List.mem_cons_self _ _
    · exact List.mem_cons_of_mem _ (ih h)

/-- Lookup is invariant under permutation when keys are distinct. -/
theorem lookupD_perm {l1 l2 : PyDict} (h : l1.Perm l2)
    (nd : (l1.map Prod.fst).Nodup) (k : String) :
    lookupD l1 k = lookupD l2 k := by
  induction h with
  | nil => rfl
  | cons x _ ih =>
    simp only [List.map_cons, List.nodup_cons] at nd
    unfold lookupD
    split
    · rfl
    · exact ih nd.2
  | swap x y l =>
    obtain ⟨xk, xv⟩ := x
    obtain ⟨yk, yv⟩ := y
    simp only [List.map_cons, List.nodup_cons, List.mem_cons] at nd
    have hxy : yk ≠ xk := fun he => nd.1 (Or.inl he)
    by_cases h1 : yk = k <;> by_cases h2 : xk = k
    · exact absurd (h1.trans h2.symm) hxy
    · simp [lookupD, h1, h2]
    · simp [lookupD, h1, h2]
    · simp [lookupD, h1, h2]
  | trans h1 _ ih1 ih2 =>
    rw [ih1 nd]
    exact ih2 (((h1.map Prod.fst).nodup_iff).mp nd)

/-- A key-preserving `Forall₂` preserves the key list. -/
theorem forall2_keys {a mid : PyDict}
    (h : List.Forall₂ (fun p q => p.1 = q.1 ∧ section_reordered p.2 q.2) a mid) :
    a.map Prod.fst = mid.map Prod.fst := by
  induction h with
  | nil => rfl
  | cons hr _ ih => simp [hr.1, ih]

/-- A key-preserving `Forall₂` relates lookups pointwise. -/
theorem lookupD_forall2 {a mid : PyDict}
    (h : List.Forall₂ (fun p q => p.1 = q.1 ∧ section_reordered p.2 q.2) a mid)
    (k : String) : opt_rel (lookupD a k) (lookupD mid k) := by
  induction h with
  | nil => exact Or.inl ⟨rfl, rfl⟩
  | @cons p q l1 l2 hr hrest ih =>
    unfold lookupD
    by_cases hk : p.1 = k
    · rw [if_pos hk, if_pos (hr.1 ▸ hk)]
      exact Or.inr ⟨p.2, q.2, rfl, rfl, hr.2⟩
    · rw [if_neg hk, if_neg (hr.1 ▸ hk)]
      exact ih

/-- The top-level lookups of reordered ASTs are `opt_rel`-related. -/
theorem lookup_reordered {a1 a2 : PyDict} (hre : ast_reordered a1 a2)
    (nd : (a1.map Prod.fst).Nodup) (k : String) :
    opt_rel (lookupD a1 k) (lookupD a2 k) := by
  obtain ⟨mid, hf, hp⟩ := hre
  have hmid := lookupD_forall2 hf k
  have hkeys := forall2_keys hf
  have hnd : (mid.map Prod.fst).Nodup := hkeys ▸ nd
  rw [lookupD_perm hp hnd k] at hmid
  exact hmid

/-- `prepare_entries` is a map over the entries. -/
theorem prepare_entries_eq_map (l : List (String × PyVal)) :
    prepare_entries l = l.map fun p => (p.1, prepare_for_json p.2) := by
  induction l with
  | nil => simp [prepare_entries]
  | cons p rest ih => simp [prepare_entries, ih]

/-- Sorting by key sends permuted entry lists with distinct keys to the
same list. -/
theorem sort_entries_eq_of_perm {l1 l2 : List (String × PyVal)} (h : l1.Perm l2)
    (nd : (l1.map Prod.fst).Nodup) : sort_entries l1 = sort_entries l2 := by
  have hs1 : List.Sorted key_le (sort_entries l1) := List.sorted_insertionSort key_le l1
  have hs2 : List.Sorted key_le (sort_entries l2) := List.sorted_insertionSort key_le l2
  have hp1 : (sort_entries l1).Perm l1 := List.perm_insertionSort key_le l1
  have hp2 : (sort_entries l2).Perm l2 := List.perm_insertionSort key_le l2
  have hperm : (sort_entries l1).Perm (sort_entries l2) :=
    (hp1.trans h).trans hp2.symm
  have hnd1 : ((sort_entries l1).map Prod.fst).Nodup :=
    ((hp1.map Prod.fst).nodup_iff).mpr nd
  have hnd2 : ((sort_entries l2).map Prod.fst).Nodup :=
    ((hperm.map Prod.fst).nodup_iff).mp hnd1
  have hstrict : ∀ (s : List (String × PyVal)), List.Sorted key_le s →
      (s.map Prod.fst).Nodup → List.Sorted key_lt s := by
    intro s hs hnds
    have hne : s.Pairwise (fun p q => p.1 ≠ q.1) := List.pairwise_map.mp hnds
    exact (hs.and hne).imp fun hpq => lt_of_le_of_ne hpq.1 hpq.2
  exact List.eq_of_perm_of_sorted hperm (hstrict _ hs1 hnd1) (hstrict _ hs2 hnd2)

/-- Top-level keys of a well-keyed AST are distinct. -/
theorem ast_keys_ok_top {a : PyDict} (h : ast_keys_ok a = true) :
    (a.map Prod.fst).Nodup := by
  unfold ast_keys_ok at h
  rw [Bool.and_eq_true] at h
  exact (distinct_keys_iff _).mp h.1

/-- Keys of a dict-valued section of a well-keyed AST are distinct. -/
theorem ast_keys_ok_section {a : PyDict} (h : ast_keys_ok a = true)
    {k : String} {l : List (String × PyVal)} (hl : lookupD a k = some (.dict l)) :
    (l.map Prod.fst).Nodup := by
  unfold ast_keys_ok at h
  rw [Bool.and_eq_true] at h
  have h2 := h.2
  rw [List.all_eq_true] at h2
  exact (distinct_keys_iff _).mp (h2 _ (lookupD_mem hl))

/-- Subscripting is invariant under entry permutation with distinct
keys. -/
theorem py_index_perm {l1 l2 : List (String × PyVal)} (hp : l1.Perm l2)
    (nd : (l1.map Prod.fst).Nodup) (k : String) :
    py_index (.dict l1) k = py_index (.dict l2) k := by
  simp only [py_index]
  rw [lookupD_perm hp nd k]

/-- `prepare_for_json` maps permuted dicts with distinct keys to the same
value. -/
theorem prepare_section_eq {l1 l2 : List (String × PyVal)} (hp : l1.Perm l2)
    (nd : (l1.map Prod.fst).Nodup) :
    prepare_for_json (.dict l1) = prepare_for_json (.dict l2) := by
  have hmap : (prepare_entries l1).Perm (prepare_entries l2) := by
    rw [prepare_entries_eq_map, prepare_entries_eq_map]
    exact hp.map _
  have hndm : ((prepare_entries l1).map Prod.fst).Nodup := by
    rw [prepare_entries_eq_map, List.map_map]
    simpa using nd
  simp only [prepare_for_json]
  rw [sort_entries_eq_of_perm hmap hndm]

/-- Either both reordered ASTs lack key `k` (and subscripting raises the
same `KeyError`) or both carry permuted dict sections with distinct
keys. -/
theorem top_index_cases {a1 a2 : PyDict} (hre : ast_reordered a1 a2)
    (hkeys : ast_keys_ok a1 = true) (k : String) :
    (py_index (.dict a1) k = .error (.keyError ("\x27" ++ k ++ "\x27")) ∧
      py_index (.dict a2) k = .error (.keyError ("\x27" ++ k ++ "\x27"))) ∨
    ∃ l1 l2, py_index (.dict a1) k = .ok (.dict l1) ∧
      py_index (.dict a2) k = .ok (.dict l2) ∧ l1.Perm l2 ∧
      (l1.map Prod.fst).Nodup := by
  have ndtop : (a1.map Prod.fst).Nodup := ast_keys_ok_top hkeys
  rcases lookup_reordered hre ndtop k with ⟨h1, h2⟩ | ⟨v, w, h1, h2, hsec⟩
  · exact Or.inl ⟨by simp [py_index, h1], by simp [py_index, h2]⟩
  · obtain ⟨l1, l2, rfl, rfl, hp⟩ := hsec
    exact Or.inr ⟨l1, l2, by simp [py_index, h1], by simp [py_index, h2], hp,
      ast_keys_ok_section hkeys h1⟩

/-- Capability resolution is insensitive to entry order. -/
theorem resolve_capability_eq {a1 a2 : PyDict} (hre : ast_reordered a1 a2)
    (hkeys : ast_keys_ok a1 = true) :
    resolve_capability (.dict a1) = resolve_capability (.dict a2) := by
  unfold resolve_capability
  rcases top_index_cases hre hkeys "verb" with ⟨hv1, hv2⟩ | ⟨v1, v2, hv1, hv2, hvp, hvnd⟩
  · simp only [hv1, hv2, bind, Except.bind]
  · simp only [hv1, hv2, bind, Except.bind]
    rw [py_index_perm hvp hvnd "class"]
    rcases top_index_cases hre hkeys "object" with ⟨ho1, ho2⟩ | ⟨o1, o2, ho1, ho2, hop, hond⟩
    · simp only [ho1, ho2, bind, Except.bind]
    · simp only [ho1, ho2, bind, Except.bind]
      rw [py_index_perm hop hond "type", py_index_perm hvp hvnd "action"]

/-- Input binding is insensitive to entry order. -/
theorem bind_inputs_eq {a1 a2 : PyDict} (hre : ast_reordered a1 a2)
    (hkeys : ast_keys_ok a1 = true) :
    bind_inputs (.dict a1) = bind_inputs (.dict a2) := by
  unfold bind_inputs
  rcases top_index_cases hre hkeys "subject" with ⟨hs1, hs2⟩ | ⟨s1, s2, hs1, hs2, hsp, hsnd⟩
  · simp only [hs1, hs2, bind, Except.bind]
  · simp only [hs1, hs2, bind, Except.bind]
    rcases top_index_cases hre hkeys "object" with ⟨ho1, ho2⟩ | ⟨o1, o2, ho1, ho2, hop, hond⟩
    · simp only [ho1, ho2, bind, Except.bind]
    · simp only [ho1, ho2, bind, Except.bind]
      rcases top_index_cases hre hkeys "verb" with ⟨hv1, hv2⟩ | ⟨v1, v2, hv1, hv2, hvp, hvnd⟩
      · simp only [hv1, hv2, bind, Except.bind]
      · simp only [hv1, hv2, bind, Except.bind]
        rw [py_index_perm hsp hsnd "identifier", py_index_perm hop hond "identifier",
          py_index_perm hvp hvnd "action", py_index_perm hsp hsnd "type",
          py_index_perm hop hond "type"]

/-- Constraint propagation is insensitive to entry order. -/
theorem propagate_constraints_eq {a1 a2 : PyDict} (hre : ast_reordered a1 a2)
    (hkeys : ast_keys_ok a1 = true) :
    propagate_constraints (.dict a1) = propagate_constraints (.dict a2) := by
  unfold propagate_constraints
  rcases top_index_cases hre hkeys "metadata" with ⟨hm1, hm2⟩ | ⟨m1, m2, hm1, hm2, hmp, hmnd⟩
  · simp only [hm1, hm2, bind, Except.bind]
  · simp only [hm1, hm2, bind, Except.bind]
    rw [py_index_perm hmp hmnd "scope", py_index_perm hmp hmnd "reversible",
      py_index_perm hmp hmnd "sensitivity", py_index_perm hmp hmnd "hrc_required"]

/-- Canonical serialization is insensitive to entry order: the defensive
copy, recursive key sort and compact dump coincide. -/
theorem serialize_canonical_ast_eq {a1 a2 : PyDict} (hre : ast_reordered a1 a2)
    (hkeys : ast_keys_ok a1 = true) :
    serialize_canonical_ast (.dict a1) = serialize_canonical_ast (.dict a2) := by
  unfold serialize_canonical_ast
  rcases top_index_cases hre hkeys "subject" with ⟨hs1, hs2⟩ | ⟨s1, s2, hs1, hs2, hsp, hsnd⟩
  · simp only [hs1, hs2, bind, Except.bind]
  · simp only [hs1, hs2, bind, Except.bind, as_dict_copy]
    rcases top_index_cases hre hkeys "verb" with ⟨hv1, hv2⟩ | ⟨v1, v2, hv1, hv2, hvp, hvnd⟩
    · simp only [hv1, hv2, bind, Except.bind]
    · simp only [hv1, hv2, bind, Except.bind, as_dict_copy]
      rcases top_index_cases hre hkeys "object" with ⟨ho1, ho2⟩ | ⟨o1, o2, ho1, ho2, hop, hond⟩
      · simp only [ho1, ho2, bind, Except.bind]
      · simp only [ho1, ho2, bind, Except.bind, as_dict_copy]
        rcases top_index_cases hre hkeys "metadata" with ⟨hm1, hm2⟩ | ⟨m1, m2, hm1, hm2, hmp, hmnd⟩
        · simp only [hm1, hm2, bind, Except.bind]
        · simp only [hm1, hm2, bind, Except.bind, as_dict_copy, pure]
          have es := prepare_section_eq hsp hsnd
          have ev := prepare_section_eq hvp hvnd
          have eo := prepare_section_eq hop hond
          have em := prepare_section_eq hmp hmnd
          simp only [prepare_for_json, prepare_entries] at es ev eo em ⊢
          rw [es, ev, eo, em]

/-- Claim C3: two ASTs carrying identical field values whose mapping keys
were inserted in different orders (at the top level and inside each
section) compile to byte-identical manifests: same `task_id`, same
`ast_hash`, and the entire `compile_ast` result coincides. -/
theorem c3_canonical_order_invariance (a1 a2 : PyDict)
    (hkeys : ast_keys_ok a1 = true) (hre : ast_reordered a1 a2) :
    generate_task_id (.dict a1) = generate_task_id (.dict a2) ∧
    generate_ast_hash (.dict a1) = generate_ast_hash (.dict a2) ∧
    compile_ast (.dict a1) = compile_ast (.dict a2) := by
  have hser := serialize_canonical_ast_eq hre hkeys
  have htask : generate_task_id (.dict a1) = generate_task_id (.dict a2) := by
    unfold generate_task_id
    rw [hser]
  have hhash : generate_ast_hash (.dict a1) = generate_ast_hash (.dict a2) := by
    unfold generate_ast_hash
    rw [hser]
  refine ⟨htask, hhash, ?_⟩
  unfold compile_ast compile_ast_body
  rw [resolve_capability_eq hre hkeys, bind_inputs_eq hre hkeys,
    propagate_constraints_eq hre hkeys, htask, hhash]

/-- Witness for C3: a concrete AST and its fully reversed insertion-order
variant (top level and every section reversed) compile identically. -/
theorem c3_witness :
    ast_keys_ok c3_ast1 = true ∧ ast_reordered c3_ast1 c3_ast2 ∧
    generate_task_id (.dict c3_ast1) = generate_task_id (.dict c3_ast2) ∧
    generate_ast_hash (.dict c3_ast1) = generate_ast_hash (.dict c3_ast2) ∧
    compile_ast (.dict c3_ast1) = compile_ast (.dict c3_ast2) := by
  have hre : ast_reordered c3_ast1 c3_ast2 := by
    refine ⟨rev_sections c3_ast1, ?_, (List.reverse_perm (rev_sections c3_ast1)).symm⟩
    exact .cons ⟨rfl, _, _, rfl, rfl, (List.reverse_perm _).symm⟩
      (.cons ⟨rfl, _, _, rfl, rfl, (List.reverse_perm _).symm⟩
        (.cons ⟨rfl, _, _, rfl, rfl, (List.reverse_perm _).symm⟩
          (.cons ⟨rfl, _, _, rfl, rfl, (List.reverse_perm _).symm⟩ .nil)))
  have h := c3_canonical_order_invariance c3_ast1 c3_ast2 rfl hre
  exact ⟨rfl, hre, h.1, h.2.1, h.2.2⟩

end PDA
